import Mathlib

/-!
Shallow embedding of the Wintun driver data path (src/wintun.c) and proofs
about its ring-buffer protocol, send/receive paths, and ring
registration/teardown control operations.

Machine integers (ULONG) are modelled as `Nat` with explicit reduction
modulo 2^32 where the C code relies on unsigned wraparound.  Pointers and
handles are modelled as `Nat` with 0 standing for NULL.  External kernel
calls that can fail (ObReferenceObjectByHandle, IoAllocateMdl,
MmProbeAndLockPages, MmGetSystemAddressForMdlSafe, PsCreateSystemThread,
NdisGetDataBuffer, NdisAllocateNetBufferAndNetBufferList) are modelled by
boolean success parameters.
-/

namespace Wintun

/-- 2^32, the modulus of ULONG arithmetic. -/
def U32 : Nat := 4294967296

/-- TUN_ALIGNMENT = sizeof(ULONG): memory alignment of packets and rings. -/
def TUN_ALIGNMENT : Nat := 4

/-- TUN_ALIGN(Size) = ((ULONG)(Size) + (TUN_ALIGNMENT-1)) & ~(ULONG)(TUN_ALIGNMENT-1).
The complement ~3 as a ULONG is 0xFFFFFFFC = 4294967292. -/
def tunAlign (size : Nat) : Nat := ((size + 3) % U32) &&& 4294967292

/-- TUN_MAX_IP_PACKET_SIZE = 0xFFFF. -/
def TUN_MAX_IP_PACKET_SIZE : Nat := 0xFFFF

/-- sizeof(TUN_PACKET) = offset of the Data flexible array = size of the ULONG
Size field. -/
def sizeofTunPacket : Nat := 4

/-- TUN_MAX_PACKET_SIZE = TUN_ALIGN(sizeof(TUN_PACKET) + TUN_MAX_IP_PACKET_SIZE). -/
def TUN_MAX_PACKET_SIZE : Nat := tunAlign (sizeofTunPacket + TUN_MAX_IP_PACKET_SIZE)

/-- TUN_MIN_RING_CAPACITY = 0x20000 (128 KiB). -/
def TUN_MIN_RING_CAPACITY : Nat := 0x20000

/-- TUN_MAX_RING_CAPACITY = 0x4000000 (64 MiB). -/
def TUN_MAX_RING_CAPACITY : Nat := 0x4000000

/-- ULONG subtraction a - b for a, b < 2^32 (two's-complement wraparound). -/
def sub32 (a b : Nat) : Nat := (a + U32 - b) % U32

/-- sizeof(TUN_RING) = Head (4) + Tail (4) + Alertable (4); the Data flexible
array contributes nothing. -/
def sizeofTunRing : Nat := 12

/-- TUN_RING_CAPACITY(Size) = Size - sizeof(TUN_RING) - (TUN_MAX_PACKET_SIZE - TUN_ALIGNMENT),
computed in ULONG arithmetic. -/
def tunRingCapacity (size : Nat) : Nat :=
  sub32 (sub32 size sizeofTunRing) (TUN_MAX_PACKET_SIZE - TUN_ALIGNMENT)

/-- TUN_RING_WRAP(Value, Capacity) = Value & (Capacity - 1). -/
def tunRingWrap (value capacity : Nat) : Nat := value &&& (capacity - 1)

/-- The byte store of a ring's Data array: a map from byte offset to byte
value.  The Data array physically has Capacity + (TUN_MAX_PACKET_SIZE -
TUN_ALIGNMENT) bytes of slack so that in-range packets never wrap; offsets
are therefore absolute, with no wraparound on data access. -/
def Buf : Type := Nat → Nat

/-- Store one byte at offset `o`. -/
def writeByte (b : Buf) (o v : Nat) : Buf := fun i => if i = o then v else b i

/-- Store a list of bytes starting at offset `o` (NdisMoveMemory). -/
def writeBytes (b : Buf) (o : Nat) : List Nat → Buf
  | [] => b
  | v :: vs => writeBytes (writeByte b o v) (o + 1) vs

/-- Store a ULONG at offset `o` as four little-endian bytes
(the x86/x64 layout of the Packet->Size field). -/
def writeU32 (b : Buf) (o v : Nat) : Buf :=
  writeBytes b o [v % 256, v / 256 % 256, v / 65536 % 256, v / 16777216 % 256]

/-- Read `n` bytes starting at offset `o`. -/
def readBytes (b : Buf) (o : Nat) : Nat → List Nat
  | 0 => []
  | n + 1 => b o :: readBytes b (o + 1) n

/-- Read a ULONG stored at offset `o` as four little-endian bytes. -/
def readU32 (b : Buf) (o : Nat) : Nat :=
  b o + 256 * b (o + 1) + 65536 * b (o + 2) + 16777216 * b (o + 3)

/-- One shared-memory ring: Head and Tail offsets plus the Data byte store
(the Alertable flag plays no role in the single-step claims proved here). -/
structure TunRing where
  head : Nat
  tail : Nat
  buf : Buf

/-- The three TUN_FLAGS bits of TUN_CTX.Flags. -/
structure TunFlags where
  running : Bool
  present : Bool
  connected : Bool
deriving DecidableEq

/-- NDIS_STATUS values assigned to NET_BUFFER_LIST_STATUS by the send path. -/
inductive NdisStatus where
  | success
  | adapterRemoved
  | paused
  | mediaDisconnected
  | invalidLength
  | adapterNotReady
  | bufferOverflow
deriving DecidableEq

/-- Free space computation of the send path (wintun.c line 273):
RingSpace = TUN_RING_WRAP(RingHead - RingTail - TUN_ALIGNMENT, RingCapacity),
with the inner subtractions in ULONG arithmetic. -/
def ringSpace (head tail capacity : Nat) : Nat :=
  tunRingWrap (sub32 (sub32 head tail) TUN_ALIGNMENT) capacity

/-- Used space computation of the receive path (wintun.c line 387):
RingContent = TUN_RING_WRAP(RingTail - RingHead, RingCapacity). -/
def ringContent (tail head capacity : Nat) : Nat :=
  tunRingWrap (sub32 tail head) capacity

/-- The per-packet body of TunSendNetBufferLists (wintun.c lines 249-296),
acting on one NET_BUFFER whose data is `payload`.  Returns the
NET_BUFFER_LIST status recorded for the packet and the send ring
afterwards.  `nbDataOk` models success of NdisGetDataBuffer; when it fails,
the length field has already been stored at RingTail but Tail is not
advanced and the packet is discarded with the last assigned status
(NDIS_STATUS_BUFFER_OVERFLOW). -/
def tunSendPacket (flags : TunFlags) (capacity : Nat) (ring : TunRing)
    (payload : List Nat) (nbDataOk : Bool) : NdisStatus × TunRing :=
  if ¬ flags.present then (.adapterRemoved, ring)
  else if ¬ flags.running then (.paused, ring)
  else if ¬ flags.connected then (.mediaDisconnected, ring)
  else
    let packetSize := payload.length
    if TUN_MAX_IP_PACKET_SIZE < packetSize then (.invalidLength, ring)
    else
      let alignedPacketSize := tunAlign (sizeofTunPacket + packetSize)
      if capacity ≤ ring.head then (.adapterNotReady, ring)
      else if capacity ≤ ring.tail then (.adapterNotReady, ring)
      else
        let space := ringSpace ring.head ring.tail capacity
        if space < alignedPacketSize then (.bufferOverflow, ring)
        else
          -- Packet->Size = PacketSize
          let buf1 := writeU32 ring.buf ring.tail packetSize
          if ¬ nbDataOk then (.bufferOverflow, { ring with buf := buf1 })
          else
            -- NdisMoveMemory(Packet->Data, NbData, PacketSize)
            let buf2 := writeBytes buf1 (ring.tail + sizeofTunPacket) payload
            (.success,
              { head := ring.head,
                tail := tunRingWrap (ring.tail + alignedPacketSize) capacity,
                buf := buf2 })

/-- Outcome of one iteration of the TunProcessReceiveData loop. -/
inductive RecvOutcome where
  /-- The loop breaks (after which Head is set to the MAXULONG sentinel). -/
  | exitLoop
  /-- Head = Tail: the loop releases the lock and enters the spin/wait path. -/
  | ringEmpty
  /-- The packet was indicated up to NDIS. -/
  | indicated (packetSize : Nat) (payload : List Nat)
  /-- The packet was dropped and counted in ifInDiscards. -/
  | discarded (packetSize : Nat)
deriving DecidableEq

/-- One iteration of the TunProcessReceiveData drain loop (wintun.c lines
335-449) on the receive ring, excluding the empty-ring spin/wait machinery.
`nblAllocOk` models success of NdisAllocateNetBufferAndNetBufferList.
Returns the outcome, the ring afterwards, and the ifInDiscards counter
afterwards. -/
def tunRecvStep (flags : TunFlags) (capacity : Nat) (ring : TunRing)
    (nblAllocOk : Bool) (inDiscards : Nat) : RecvOutcome × TunRing × Nat :=
  if ¬ flags.connected then (.exitLoop, ring, inDiscards)
  else if capacity ≤ ring.head then (.exitLoop, ring, inDiscards)
  else if ring.head = ring.tail then (.ringEmpty, ring, inDiscards)
  else if capacity ≤ ring.tail then (.exitLoop, ring, inDiscards)
  else
    let content := ringContent ring.tail ring.head capacity
    if content < sizeofTunPacket then (.exitLoop, ring, inDiscards)
    else
      let packetSize := readU32 ring.buf ring.head
      if TUN_MAX_IP_PACKET_SIZE < packetSize then (.exitLoop, ring, inDiscards)
      else
        let alignedPacketSize := tunAlign (sizeofTunPacket + packetSize)
        if content < alignedPacketSize then (.exitLoop, ring, inDiscards)
        else
          let firstByte := ring.buf (ring.head + sizeofTunPacket)
          if ¬ ((20 ≤ packetSize ∧ firstByte >>> 4 = 4) ∨
                (40 ≤ packetSize ∧ firstByte >>> 4 = 6)) then
            (.exitLoop, ring, inDiscards)
          else
            let ring' :=
              { ring with
                head := tunRingWrap (ring.head + alignedPacketSize) capacity }
            if ¬ nblAllocOk then (.discarded packetSize, ring', inDiscards + 1)
            else if ¬ (flags.present ∧ flags.running) then
              (.discarded packetSize, ring', inDiscards + 1)
            else
              (.indicated packetSize
                 (readBytes ring.buf (ring.head + sizeofTunPacket) packetSize),
               ring', inDiscards)

/-- 64-bit population count (the PopulationCount64 intrinsic), written with
explicit fuel of 64 halvings so that it evaluates by kernel reduction. -/
def popCountAux : Nat → Nat → Nat
  | 0, _ => 0
  | fuel + 1, n => if n = 0 then 0 else n % 2 + popCountAux fuel (n / 2)

/-- PopulationCount64. -/
def popCount64 (n : Nat) : Nat := popCountAux 64 n

/-- NTSTATUS values returned by the buffer-registration control operation.
`objRefFailed` stands for the (unspecified) failure status propagated from
ObReferenceObjectByHandle; `ndisFailure` is NDIS_STATUS_FAILURE. -/
inductive NtStatus where
  | success
  | alreadyRegistered
  | invalidParameter
  | insufficientResources
  | invalidUserBuffer
  | objRefFailed
  | ndisFailure
deriving DecidableEq

/-- The adapter-context state touched by TunDispatchRegisterBuffers and
TunDispatchUnregisterBuffers.  Pointer/handle fields are Nat with 0 = NULL.
The `...Held` booleans track whether the corresponding kernel resource
(event object reference, allocated MDL, pinned pages, thread handle) is
currently held by the driver; `sendRingTail` mirrors the shared send ring's
Tail field, which teardown sets to the MAXULONG sentinel. -/
structure DeviceCtx where
  connected : Bool
  owner : Nat
  sendCapacity : Nat
  recvCapacity : Nat
  sendEventRefHeld : Bool
  sendMdlHeld : Bool
  sendPagesPinned : Bool
  recvEventRefHeld : Bool
  recvMdlHeld : Bool
  recvPagesPinned : Bool
  recvThreadHandleHeld : Bool
  sendRingTail : Nat
deriving DecidableEq

/-- The TUN_REGISTER_RINGS input structure plus the I/O-stack buffer length
of the DeviceIoControl request. -/
structure RegInput where
  inputBufferLength : Nat
  sendRingSize : Nat
  sendRing : Nat
  sendTailMoved : Nat
  recvRingSize : Nat
  recvRing : Nat
  recvTailMoved : Nat
deriving DecidableEq

/-- sizeof(TUN_REGISTER_RINGS) on x64: two substructures of
{ULONG RingSize; TUN_RING *Ring; HANDLE TailMoved} = 24 bytes each. -/
def sizeofTunRegisterRings : Nat := 48

/-- Success/failure of the external kernel calls made by
TunDispatchRegisterBuffers, in program order. -/
structure RegExt where
  sendObjRefOk : Bool
  sendMdlOk : Bool
  sendProbeOk : Bool
  sendMapOk : Bool
  recvObjRefOk : Bool
  recvMdlOk : Bool
  recvProbeOk : Bool
  recvMapOk : Bool
  threadOk : Bool
deriving DecidableEq

/-- cleanupResetOwner: InterlockedExchangePointer(&Ctx->Device.Owner, NULL). -/
def cleanupResetOwner (c : DeviceCtx) : DeviceCtx := { c with owner := 0 }

/-- cleanupSendTailMoved: ObDereferenceObject(Send.TailMoved), then falls
through to cleanupResetOwner. -/
def cleanupSendTailMoved (c : DeviceCtx) : DeviceCtx :=
  cleanupResetOwner { c with sendEventRefHeld := false }

/-- cleanupSendMdl: IoFreeMdl(Send.Mdl), then falls through. -/
def cleanupSendMdl (c : DeviceCtx) : DeviceCtx :=
  cleanupSendTailMoved { c with sendMdlHeld := false }

/-- cleanupSendUnlockPages: MmUnlockPages(Send.Mdl), then falls through. -/
def cleanupSendUnlockPages (c : DeviceCtx) : DeviceCtx :=
  cleanupSendMdl { c with sendPagesPinned := false }

/-- cleanupReceiveTailMoved: ObDereferenceObject(Receive.TailMoved), then
falls through. -/
def cleanupReceiveTailMoved (c : DeviceCtx) : DeviceCtx :=
  cleanupSendUnlockPages { c with recvEventRefHeld := false }

/-- cleanupReceiveMdl: IoFreeMdl(Receive.Mdl), then falls through. -/
def cleanupReceiveMdl (c : DeviceCtx) : DeviceCtx :=
  cleanupReceiveTailMoved { c with recvMdlHeld := false }

/-- cleanupReceiveUnlockPages: MmUnlockPages(Receive.Mdl), then falls
through. -/
def cleanupReceiveUnlockPages (c : DeviceCtx) : DeviceCtx :=
  cleanupReceiveMdl { c with recvPagesPinned := false }

/-- cleanupFlagsConnected: InterlockedAnd(&Flags, ~TUN_FLAGS_CONNECTED) plus
the transition-lock publication barrier, then falls through. -/
def cleanupFlagsConnected (c : DeviceCtx) : DeviceCtx :=
  cleanupReceiveUnlockPages { c with connected := false }

/-- TunDispatchRegisterBuffers (wintun.c lines 477-587).  The initial
InterlockedCompareExchangePointer claims ownership for `fileObject` only
when the Owner field is NULL; each subsequent validation or resource
failure exits through the goto chain of cleanup labels. -/
def tunDispatchRegisterBuffers (c : DeviceCtx) (inp : RegInput) (ext : RegExt)
    (fileObject : Nat) : NtStatus × DeviceCtx :=
  if c.owner ≠ 0 then (.alreadyRegistered, c)
  else
    let c := { c with owner := fileObject }
    if inp.inputBufferLength ≠ sizeofTunRegisterRings then
      (.invalidParameter, cleanupResetOwner c)
    else
      -- Analyze and lock send ring.
      let c := { c with sendCapacity := tunRingCapacity inp.sendRingSize }
      if c.sendCapacity < TUN_MIN_RING_CAPACITY ∨
         TUN_MAX_RING_CAPACITY < c.sendCapacity ∨
         popCount64 c.sendCapacity ≠ 1 ∨
         inp.sendTailMoved = 0 ∨ inp.sendRing = 0 then
        (.invalidParameter, cleanupResetOwner c)
      else if ¬ ext.sendObjRefOk then (.objRefFailed, cleanupResetOwner c)
      else
        let c := { c with sendEventRefHeld := true }
        if ¬ ext.sendMdlOk then (.insufficientResources, cleanupSendTailMoved c)
        else
          let c := { c with sendMdlHeld := true }
          if ¬ ext.sendProbeOk then (.invalidUserBuffer, cleanupSendMdl c)
          else
            let c := { c with sendPagesPinned := true }
            if ¬ ext.sendMapOk then
              (.insufficientResources, cleanupSendUnlockPages c)
            else
              -- Analyze and lock receive ring.
              let c := { c with recvCapacity := tunRingCapacity inp.recvRingSize }
              if c.recvCapacity < TUN_MIN_RING_CAPACITY ∨
                 TUN_MAX_RING_CAPACITY < c.recvCapacity ∨
                 popCount64 c.recvCapacity ≠ 1 ∨
                 inp.recvTailMoved = 0 ∨ inp.recvRing = 0 then
                (.invalidParameter, cleanupSendUnlockPages c)
              else if ¬ ext.recvObjRefOk then
                (.objRefFailed, cleanupSendUnlockPages c)
              else
                let c := { c with recvEventRefHeld := true }
                if ¬ ext.recvMdlOk then
                  (.insufficientResources, cleanupReceiveTailMoved c)
                else
                  let c := { c with recvMdlHeld := true }
                  if ¬ ext.recvProbeOk then
                    (.invalidUserBuffer, cleanupReceiveMdl c)
                  else
                    let c := { c with recvPagesPinned := true }
                    if ¬ ext.recvMapOk then
                      (.insufficientResources, cleanupReceiveUnlockPages c)
                    else
                      let c := { c with connected := true }
                      -- Spawn receiver thread.
                      if ¬ ext.threadOk then
                        (.ndisFailure, cleanupFlagsConnected c)
                      else
                        (.success, { c with recvThreadHandleHeld := true })

/-- Externally visible actions performed by TunDispatchUnregisterBuffers. -/
structure UnregEffects where
  recvEventSignaled : Bool
  linkDownIndicated : Bool
  threadWaitedAndClosed : Bool
  sendEventSignaled : Bool
deriving DecidableEq

/-- The empty effect set. -/
def noUnregEffects : UnregEffects :=
  { recvEventSignaled := false, linkDownIndicated := false,
    threadWaitedAndClosed := false, sendEventSignaled := false }

/-- TunDispatchUnregisterBuffers (wintun.c lines 590-622).  The initial
InterlockedCompareExchangePointer(&Owner, NULL, Owner) proceeds only when
the stored owner equals the caller's file object; otherwise the call
returns immediately.  On the matching path it clears the connected flag
(with the publication barrier), signals the receive TailMoved event, waits
for and closes the receive thread, writes the MAXULONG sentinel into the
send ring's Tail, signals the send TailMoved event, and releases both
rings' pinned pages, MDLs and event references. -/
def tunDispatchUnregisterBuffers (c : DeviceCtx) (owner : Nat) :
    DeviceCtx × UnregEffects :=
  if c.owner ≠ owner then (c, noUnregEffects)
  else
    ({ c with
        owner := 0,
        connected := false,
        recvThreadHandleHeld := false,
        sendRingTail := 4294967295,
        recvPagesPinned := false,
        recvMdlHeld := false,
        recvEventRefHeld := false,
        sendPagesPinned := false,
        sendMdlHeld := false,
        sendEventRefHeld := false },
     { recvEventSignaled := true, linkDownIndicated := true,
       threadWaitedAndClosed := true, sendEventSignaled := true })

/-! ### Arithmetic facts about the ring primitives -/

theorem U32_eq_pow : U32 = 2 ^ 32 := by norm_num [U32]

/-- Masking with `Capacity - 1` is reduction mod the capacity when the
capacity is a power of two. -/
theorem tunRingWrap_pow2 (v k : Nat) : tunRingWrap v (2 ^ k) = v % 2 ^ k := by
  unfold tunRingWrap
  exact Nat.and_pow_two_sub_one_eq_mod v k

/-- The mask `& ~3` clears the two low bits: for b < 2^32 it equals
rounding down to a multiple of 4. -/
theorem and_mask32 (b : Nat) (hb : b < 4294967296) :
    b &&& 4294967292 = 4 * (b / 4) := by
  have hmask : (4294967292 : Nat) = (2 ^ 30 - 1) <<< 2 := by
    norm_num [Nat.shiftLeft_eq]
  have hround : 4 * (b / 4) = (b >>> 2) <<< 2 := by
    simp only [Nat.shiftRight_eq_div_pow, Nat.shiftLeft_eq]
    norm_num
    omega
  rw [hmask, hround]
  apply Nat.eq_of_testBit_eq
  intro i
  rw [Nat.testBit_and, Nat.testBit_shiftLeft, Nat.testBit_shiftLeft,
    Nat.testBit_shiftRight, Nat.testBit_two_pow_sub_one]
  by_cases h2 : 2 ≤ i
  · have hi : 2 + (i - 2) = i := by omega
    rw [hi]
    by_cases h32 : i < 32
    · simp [h2, show i - 2 < 30 by omega]
    · have hfalse : b.testBit i = false := by
        apply Nat.testBit_lt_two_pow
        calc b < 2 ^ 32 := by norm_num at hb ⊢; omega
        _ ≤ 2 ^ i := Nat.pow_le_pow_right (by norm_num) (by omega)
      simp [hfalse, show ¬ (i - 2 < 30) by omega]
  · simp [show ¬ i ≥ 2 by omega]

/-- TUN_ALIGN always rounds its (wrapped) argument down-from-plus-3 to a
multiple of 4. -/
theorem tunAlign_eq (s : Nat) : tunAlign s = 4 * (((s + 3) % U32) / 4) := by
  unfold tunAlign
  exact and_mask32 _ (Nat.mod_lt _ (by norm_num [U32]))

/-- For arguments below the ULONG wraparound, TUN_ALIGN is ordinary
round-up-to-multiple-of-4. -/
theorem tunAlign_small (s : Nat) (hs : s + 3 < U32) :
    tunAlign s = 4 * ((s + 3) / 4) := by
  rw [tunAlign_eq, Nat.mod_eq_of_lt hs]

theorem tunAlign_dvd (s : Nat) : 4 ∣ tunAlign s := by
  rw [tunAlign_eq]; exact Dvd.intro _ rfl

theorem tunAlign_ge (s : Nat) (hs : s + 3 < U32) : s ≤ tunAlign s := by
  rw [tunAlign_small s hs]; omega

theorem tunAlign_le (s : Nat) (hs : s + 3 < U32) : tunAlign s ≤ s + 3 := by
  rw [tunAlign_small s hs]; omega

/-- (U32 - d) reduced mod a capacity dividing U32 is the capacity's
complement of d. -/
theorem U32_sub_mod (c m d : Nat) (hm : U32 = c * m) (hd : 0 < d)
    (hdc : d ≤ c) : (U32 - d) % c = c - d := by
  have hm0 : m ≠ 0 := by
    intro h; rw [h, Nat.mul_zero] at hm; norm_num [U32] at hm
  obtain ⟨m', rfl⟩ : ∃ m', m = m' + 1 := ⟨m - 1, by omega⟩
  have hsplit : U32 - d = c * m' + (c - d) := by
    have hmul : c * (m' + 1) = c * m' + c := Nat.mul_succ c m'
    omega
  rw [hsplit, Nat.mul_add_mod]
  exact Nat.mod_eq_of_lt (by omega)

theorem pow2_dvd_U32 (k : Nat) (hk : k ≤ 32) : 2 ^ k ∣ U32 := by
  rw [U32_eq_pow]; exact Nat.pow_dvd_pow 2 hk

theorem U32_val : U32 = 4294967296 := rfl

/-- Key invariant of the wraparound arithmetic (spec, testable property 1):
free space plus used space always equals capacity minus one alignment
unit, for aligned in-range offsets and power-of-two capacity. -/
theorem ringSpace_add_ringContent (k h t : Nat) (hk2 : 2 ≤ k) (hk : k ≤ 32)
    (hh4 : 4 ∣ h) (ht4 : 4 ∣ t) (hh : h < 2 ^ k) (ht : t < 2 ^ k) :
    ringSpace h t (2 ^ k) + ringContent t h (2 ^ k) = 2 ^ k - 4 := by
  obtain ⟨m, hm⟩ := pow2_dvd_U32 k hk
  rw [U32_val] at hm
  have hc4 : 4 ≤ 2 ^ k := by
    calc (4 : Nat) = 2 ^ 2 := by norm_num
    _ ≤ 2 ^ k := Nat.pow_le_pow_right (by norm_num) hk2
  have hcU : 2 ^ k ≤ 4294967296 := by
    calc 2 ^ k ≤ 2 ^ 32 := Nat.pow_le_pow_right (by norm_num) hk
    _ = 4294967296 := by norm_num
  have h4c : (4 : Nat) ∣ 2 ^ k := by
    have h22 : (4 : Nat) = 2 ^ 2 := by norm_num
    rw [h22]
    exact Nat.pow_dvd_pow 2 hk2
  unfold ringSpace ringContent sub32 TUN_ALIGNMENT
  rw [tunRingWrap_pow2, tunRingWrap_pow2]
  simp only [U32_val]
  rcases Nat.lt_trichotomy h t with hlt | heq | hgt
  · -- h < t: free = c - (t - h) - 4, used = t - h
    have hd : h + 4 ≤ t := by omega
    have e1 : ((h + 4294967296 - t) % 4294967296 + 4294967296 - 4) % 4294967296
        = 4294967296 - (t - h + 4) := by omega
    have e2 : (t + 4294967296 - h) % 4294967296 = t - h := by omega
    rw [e1, e2]
    have e3 : (4294967296 - (t - h + 4)) % 2 ^ k = 2 ^ k - (t - h + 4) := by
      rw [← U32_val]
      exact U32_sub_mod (2 ^ k) m (t - h + 4) (by rw [U32_val]; exact hm)
        (by omega) (by omega)
    have e4 : (t - h) % 2 ^ k = t - h := Nat.mod_eq_of_lt (by omega)
    rw [e3, e4]
    omega
  · -- h = t: free = c - 4, used = 0
    subst heq
    have e1 : ((h + 4294967296 - h) % 4294967296 + 4294967296 - 4) % 4294967296
        = 4294967296 - 4 := by omega
    have e2 : (h + 4294967296 - h) % 4294967296 = 0 := by omega
    rw [e1, e2]
    have e3 : (4294967296 - 4) % 2 ^ k = 2 ^ k - 4 := by
      rw [← U32_val]
      exact U32_sub_mod (2 ^ k) m 4 (by rw [U32_val]; exact hm)
        (by omega) (by omega)
    rw [e3, Nat.zero_mod]
    omega
  · -- h > t: free = h - t - 4, used = c - (h - t)
    have hd : t + 4 ≤ h := by omega
    have e1 : ((h + 4294967296 - t) % 4294967296 + 4294967296 - 4) % 4294967296
        = h - t - 4 := by omega
    have e2 : (t + 4294967296 - h) % 4294967296 = 4294967296 - (h - t) := by
      omega
    rw [e1, e2]
    have e3 : (4294967296 - (h - t)) % 2 ^ k = 2 ^ k - (h - t) := by
      rw [← U32_val]
      exact U32_sub_mod (2 ^ k) m (h - t) (by rw [U32_val]; exact hm)
        (by omega) (by omega)
    have e4 : (h - t - 4) % 2 ^ k = h - t - 4 := Nat.mod_eq_of_lt (by omega)
    rw [e3, e4]
    omega

/-- ringSpace is always below the capacity (it is a mask/mod result). -/
theorem ringSpace_lt (h t k : Nat) : ringSpace h t (2 ^ k) < 2 ^ k := by
  unfold ringSpace
  rw [tunRingWrap_pow2]
  exact Nat.mod_lt _ (Nat.pos_pow_of_pos k (by norm_num))

/-- After the producer advances Tail by `fp`, the consumer's used-space
computation from the old Tail position recovers exactly `fp`. -/
theorem ringContent_after (k t fp : Nat) (hk : k ≤ 32) (ht : t < 2 ^ k)
    (hfp0 : 0 < fp) (hfp : fp < 2 ^ k) :
    ringContent (tunRingWrap (t + fp) (2 ^ k)) t (2 ^ k) = fp := by
  obtain ⟨m, hm⟩ := pow2_dvd_U32 k hk
  have hm' : 4294967296 = 2 ^ k * m := by rw [← U32_val]; exact hm
  have hm0 : m ≠ 0 := by
    intro h; rw [h, Nat.mul_zero] at hm'; norm_num at hm'
  have hcU : 2 ^ k ≤ 4294967296 := by
    calc 2 ^ k ≤ 2 ^ 32 := Nat.pow_le_pow_right (by norm_num) hk
    _ = 4294967296 := by norm_num
  unfold ringContent sub32
  rw [tunRingWrap_pow2, tunRingWrap_pow2, Nat.mod_mod_of_dvd _ ⟨m, hm⟩]
  simp only [U32_val]
  by_cases hcase : t + fp < 2 ^ k
  · rw [Nat.mod_eq_of_lt hcase]
    have e1 : t + fp + 4294967296 - t = fp + 2 ^ k * m := by omega
    rw [e1, Nat.add_mul_mod_self_left]
    exact Nat.mod_eq_of_lt hfp
  · have e0 : (t + fp) % 2 ^ k = t + fp - 2 ^ k := by
      rw [Nat.mod_eq_sub_mod (by omega)]
      exact Nat.mod_eq_of_lt (by omega)
    rw [e0]
    obtain ⟨m', rfl⟩ : ∃ m', m = m' + 1 := ⟨m - 1, by omega⟩
    have hmul : 2 ^ k * (m' + 1) = 2 ^ k * m' + 2 ^ k := Nat.mul_succ _ _
    have e1 : t + fp - 2 ^ k + 4294967296 - t = fp + 2 ^ k * m' := by omega
    rw [e1, Nat.add_mul_mod_self_left]
    exact Nat.mod_eq_of_lt hfp

/-- Advancing by a positive amount smaller than the capacity moves the
offset: the wrapped new Tail differs from the old one. -/
theorem tunRingWrap_add_ne (k t fp : Nat) (hk : k ≤ 32) (ht : t < 2 ^ k)
    (hfp0 : 0 < fp) (hfp : fp < 2 ^ k) :
    tunRingWrap (t + fp) (2 ^ k) ≠ t := by
  intro hEq
  have h1 := ringContent_after k t fp hk ht hfp0 hfp
  rw [hEq] at h1
  unfold ringContent sub32 at h1
  rw [tunRingWrap_pow2] at h1
  simp only [U32_val] at h1
  have e1 : (t + 4294967296 - t) % 4294967296 = 0 := by omega
  rw [e1, Nat.zero_mod] at h1
  omega

/-- A wrapped advance from an aligned offset by an aligned footprint stays
aligned and in range. -/
theorem wrap_advance (k x fp : Nat) (hk2 : 2 ≤ k) (hx4 : 4 ∣ x)
    (hfp4 : 4 ∣ fp) :
    4 ∣ tunRingWrap (x + fp) (2 ^ k) ∧ tunRingWrap (x + fp) (2 ^ k) < 2 ^ k := by
  rw [tunRingWrap_pow2]
  constructor
  · have h4c : 4 ∣ 2 ^ k := by
      have : (4 : Nat) = 2 ^ 2 := by norm_num
      rw [this]
      exact Nat.pow_dvd_pow 2 hk2
    rw [Nat.dvd_mod_iff h4c]
    exact Nat.dvd_add hx4 hfp4
  · exact Nat.mod_lt _ (Nat.pos_pow_of_pos k (by norm_num))

/-! ### Byte-store lemmas -/

theorem writeBytes_of_lt (vs : List Nat) (b : Buf) (o i : Nat) (h : i < o) :
    writeBytes b o vs i = b i := by
  induction vs generalizing b o with
  | nil => rfl
  | cons v vs ih =>
    simp only [writeBytes]
    rw [ih _ (o + 1) (by omega)]
    simp only [writeByte]
    rw [if_neg (by omega)]

theorem writeBytes_of_ge (vs : List Nat) (b : Buf) (o i : Nat)
    (h : o + vs.length ≤ i) : writeBytes b o vs i = b i := by
  induction vs generalizing b o with
  | nil => rfl
  | cons v vs ih =>
    simp only [List.length_cons] at h
    simp only [writeBytes]
    rw [ih _ (o + 1) (by omega)]
    simp only [writeByte]
    rw [if_neg (by omega)]

/-- Reading back a stored byte sequence returns it unchanged. -/
theorem readBytes_writeBytes (vs : List Nat) (b : Buf) (o : Nat) :
    readBytes (writeBytes b o vs) o vs.length = vs := by
  induction vs generalizing b o with
  | nil => rfl
  | cons v vs ih =>
    simp only [List.length_cons, readBytes]
    have h1 : writeBytes b o (v :: vs) o = v := by
      simp only [writeBytes]
      rw [writeBytes_of_lt vs _ (o + 1) o (by omega)]
      simp [writeByte]
    have h2 : readBytes (writeBytes b o (v :: vs)) (o + 1) vs.length = vs := by
      simp only [writeBytes]
      exact ih (writeByte b o v) (o + 1)
    rw [h1, h2]

/-- Reading back a stored ULONG returns it unchanged. -/
theorem readU32_writeU32 (b : Buf) (o v : Nat) (hv : v < U32) :
    readU32 (writeU32 b o v) o = v := by
  rw [U32_val] at hv
  simp only [writeU32, writeBytes, writeByte, readU32]
  split_ifs <;> omega

/-- Writing a ULONG touches only offsets o..o+3. -/
theorem writeU32_of_ge (b : Buf) (o v i : Nat) (h : o + 4 ≤ i) :
    writeU32 b o v i = b i := by
  unfold writeU32
  exact writeBytes_of_ge _ b o i (by simpa using h)

theorem writeU32_of_lt (b : Buf) (o v i : Nat) (h : i < o) :
    writeU32 b o v i = b i := by
  unfold writeU32
  exact writeBytes_of_lt _ b o i h

/-! ### PopulationCount64 characterization -/

theorem popCountAux_eq_zero_iff (fuel n : Nat) (h : n < 2 ^ fuel) :
    popCountAux fuel n = 0 ↔ n = 0 := by
  induction fuel generalizing n with
  | zero =>
    simp only [pow_zero, Nat.lt_one_iff] at h
    subst h
    simp [popCountAux]
  | succ fuel ih =>
    by_cases hn : n = 0
    · subst hn; simp [popCountAux]
    · simp only [popCountAux, if_neg hn]
      have hdiv : n / 2 < 2 ^ fuel := by
        rw [pow_succ] at h
        omega
      rw [Nat.add_eq_zero]
      constructor
      · rintro ⟨h2, h0⟩
        have := (ih (n / 2) hdiv).mp h0
        omega
      · intro h0; omega

theorem popCountAux_zero_val (fuel : Nat) : popCountAux fuel 0 = 0 := by
  cases fuel <;> simp [popCountAux]

theorem popCountAux_eq_one_iff (fuel n : Nat) (h : n < 2 ^ fuel) :
    popCountAux fuel n = 1 ↔ ∃ j, n = 2 ^ j := by
  induction fuel generalizing n with
  | zero =>
    simp only [pow_zero, Nat.lt_one_iff] at h
    subst h
    simp only [popCountAux]
    constructor
    · intro h1
      exact absurd h1 (by norm_num)
    · rintro ⟨j, hj⟩
      have hp := Nat.pos_pow_of_pos j (show 0 < 2 by norm_num)
      omega
  | succ fuel ih =>
    by_cases hn : n = 0
    · subst hn
      rw [popCountAux_zero_val]
      constructor
      · intro h1
        exact absurd h1 (by norm_num)
      · rintro ⟨j, hj⟩
        have hp := Nat.pos_pow_of_pos j (show 0 < 2 by norm_num)
        omega
    · simp only [popCountAux, if_neg hn]
      have hdiv : n / 2 < 2 ^ fuel := by
        rw [pow_succ] at h
        omega
      rcases Nat.even_or_odd n with he | ho
      · -- n even: n % 2 = 0, so popCount n = popCount (n/2)
        have h2 : n % 2 = 0 := Nat.even_iff.mp he
        rw [h2, Nat.zero_add, ih (n / 2) hdiv]
        constructor
        · rintro ⟨j, hj⟩
          refine ⟨j + 1, ?_⟩
          rw [pow_succ]
          omega
        · rintro ⟨j, hj⟩
          cases j with
          | zero => exfalso; rw [pow_zero] at hj; omega
          | succ j' =>
            refine ⟨j', ?_⟩
            rw [pow_succ] at hj
            omega
      · -- n odd: n % 2 = 1, so popCount n = 1 ↔ popCount (n/2) = 0 ↔ n = 1
        have h2 : n % 2 = 1 := Nat.odd_iff.mp ho
        rw [h2]
        constructor
        · intro h1
          have h0 : popCountAux fuel (n / 2) = 0 := by omega
          have := (popCountAux_eq_zero_iff fuel (n / 2) hdiv).mp h0
          refine ⟨0, ?_⟩
          rw [pow_zero]
          omega
        · rintro ⟨j, hj⟩
          cases j with
          | zero =>
            rw [pow_zero] at hj
            subst hj
            simp [popCountAux_zero_val]
          | succ j' =>
            exfalso
            rw [pow_succ] at hj
            omega

/-- PopulationCount64 detects powers of two: for any 64-bit value the
popcount is 1 exactly when the value is a power of two. -/
theorem popCount64_eq_one_iff (n : Nat) (h : n < 2 ^ 64) :
    popCount64 n = 1 ↔ ∃ j, n = 2 ^ j :=
  popCountAux_eq_one_iff 64 n h

/-- tunRingCapacity always produces a value below 2^32. -/
theorem tunRingCapacity_lt (size : Nat) : tunRingCapacity size < U32 := by
  unfold tunRingCapacity sub32
  exact Nat.mod_lt _ (by rw [U32_val]; norm_num)

/-- Bounds TUN_MIN_RING_CAPACITY ≤ 2^k ≤ TUN_MAX_RING_CAPACITY pin the
exponent between 17 and 26. -/
theorem capacity_exponent_bounds (k : Nat)
    (hmin : TUN_MIN_RING_CAPACITY ≤ 2 ^ k)
    (hmax : 2 ^ k ≤ TUN_MAX_RING_CAPACITY) : 17 ≤ k ∧ k ≤ 26 := by
  constructor
  · have h1 : (2 : Nat) ^ 17 ≤ 2 ^ k := by
      calc (2 : Nat) ^ 17 = TUN_MIN_RING_CAPACITY := by norm_num [TUN_MIN_RING_CAPACITY]
      _ ≤ 2 ^ k := hmin
    exact (Nat.pow_le_pow_iff_right (by norm_num)).mp h1
  · have h2 : (2 : Nat) ^ k ≤ 2 ^ 26 := by
      calc (2 : Nat) ^ k ≤ TUN_MAX_RING_CAPACITY := hmax
      _ = 2 ^ 26 := by norm_num [TUN_MAX_RING_CAPACITY]
    exact (Nat.pow_le_pow_iff_right (by norm_num)).mp h2

/-! ### Claim theorems -/

/-- Claim C2: for every head and tail that are multiples of the alignment
unit and strictly less than capacity, and every power-of-two capacity
within the legal ring bounds, the send path's free-space computation plus
the receive path's used-space computation equals capacity minus the
alignment unit. -/
theorem c2_free_plus_used (capacity head tail k : Nat)
    (hcap : capacity = 2 ^ k)
    (hmin : TUN_MIN_RING_CAPACITY ≤ capacity)
    (hmax : capacity ≤ TUN_MAX_RING_CAPACITY)
    (hh4 : 4 ∣ head) (ht4 : 4 ∣ tail)
    (hh : head < capacity) (ht : tail < capacity) :
    ringSpace head tail capacity + ringContent tail head capacity
      = capacity - TUN_ALIGNMENT := by
  subst hcap
  obtain ⟨h17, h26⟩ := capacity_exponent_bounds k hmin hmax
  have := ringSpace_add_ringContent k head tail (by omega) (by omega)
    hh4 ht4 hh ht
  unfold TUN_ALIGNMENT
  exact this

/-- Witness for C2 at capacity 2^17, head 8, tail 131064. -/
theorem c2_free_plus_used_witness :
    ((131072 : Nat) = 2 ^ 17 ∧ TUN_MIN_RING_CAPACITY ≤ 131072 ∧
      (131072 : Nat) ≤ TUN_MAX_RING_CAPACITY ∧ (4 : Nat) ∣ 8 ∧
      (4 : Nat) ∣ 131064 ∧ (8 : Nat) < 131072 ∧ (131064 : Nat) < 131072) ∧
    ringSpace 8 131064 131072 + ringContent 131064 8 131072
      = 131072 - TUN_ALIGNMENT :=
  ⟨⟨by norm_num, by decide, by decide, by decide, by decide, by decide,
      by decide⟩,
    c2_free_plus_used 131072 8 131064 17 (by norm_num) (by decide)
      (by decide) (by decide) (by decide) (by decide) (by decide)⟩

/-- Evaluation of the send path on the accepting branch: with all three
flags set, an in-range packet, valid offsets and sufficient free space,
the packet is framed at Tail and Tail advances by the aligned footprint. -/
theorem tunSendPacket_success_eq (flags : TunFlags) (capacity : Nat)
    (ring : TunRing) (payload : List Nat)
    (hp : flags.present = true) (hr : flags.running = true)
    (hc : flags.connected = true)
    (hL : payload.length ≤ TUN_MAX_IP_PACKET_SIZE)
    (hh : ring.head < capacity) (ht : ring.tail < capacity)
    (hspace : tunAlign (sizeofTunPacket + payload.length) ≤
      ringSpace ring.head ring.tail capacity) :
    tunSendPacket flags capacity ring payload true =
      (.success,
        { head := ring.head,
          tail := tunRingWrap
            (ring.tail + tunAlign (sizeofTunPacket + payload.length)) capacity,
          buf := writeBytes (writeU32 ring.buf ring.tail payload.length)
            (ring.tail + sizeofTunPacket) payload }) := by
  simp only [tunSendPacket, hp, hr, hc, not_true, if_false, Bool.not_true]
  rw [if_neg (by omega), if_neg (by omega), if_neg (by omega),
    if_neg (by omega)]

/-- Claim C5: with all three adapter flags set and aligned in-range
offsets, a packet whose aligned footprint exactly equals the computed free
space is accepted — copied in and Tail advanced — while a packet whose
footprint exceeds free space by any amount is rejected with
NDIS_STATUS_BUFFER_OVERFLOW and not enqueued. -/
theorem c5_exact_fit_boundary (flags : TunFlags) (capacity k : Nat)
    (ring : TunRing) (payload : List Nat)
    (hp : flags.present = true) (hr : flags.running = true)
    (hc : flags.connected = true)
    (hcap : capacity = 2 ^ k)
    (hmin : TUN_MIN_RING_CAPACITY ≤ capacity)
    (hmax : capacity ≤ TUN_MAX_RING_CAPACITY)
    (hh4 : 4 ∣ ring.head) (ht4 : 4 ∣ ring.tail)
    (hh : ring.head < capacity) (ht : ring.tail < capacity)
    (hL : payload.length ≤ TUN_MAX_IP_PACKET_SIZE) :
    (tunAlign (sizeofTunPacket + payload.length)
        = ringSpace ring.head ring.tail capacity →
      (tunSendPacket flags capacity ring payload true).1 = .success ∧
      (tunSendPacket flags capacity ring payload true).2.tail =
        tunRingWrap
          (ring.tail + tunAlign (sizeofTunPacket + payload.length)) capacity ∧
      (tunSendPacket flags capacity ring payload true).2.tail ≠ ring.tail ∧
      readBytes (tunSendPacket flags capacity ring payload true).2.buf
        (ring.tail + sizeofTunPacket) payload.length = payload) ∧
    (∀ nbDataOk,
      ringSpace ring.head ring.tail capacity
          < tunAlign (sizeofTunPacket + payload.length) →
      tunSendPacket flags capacity ring payload nbDataOk
        = (.bufferOverflow, ring)) := by
  obtain ⟨h17, h26⟩ := by
    rw [hcap] at hmin hmax
    exact capacity_exponent_bounds k hmin hmax
  constructor
  · intro hfit
    have hs := tunSendPacket_success_eq flags capacity ring payload hp hr hc
      hL hh ht (le_of_eq hfit)
    rw [hs]
    refine ⟨rfl, rfl, ?_, ?_⟩
    · show tunRingWrap
        (ring.tail + tunAlign (sizeofTunPacket + payload.length)) capacity
          ≠ ring.tail
      subst hcap
      apply tunRingWrap_add_ne k ring.tail _ (by omega) ht
      · have h4le : 4 ≤ tunAlign (sizeofTunPacket + payload.length) := by
          have := tunAlign_ge (sizeofTunPacket + payload.length)
            (by norm_num [sizeofTunPacket, TUN_MAX_IP_PACKET_SIZE, U32_val]
                at hL ⊢; omega)
          unfold sizeofTunPacket at this ⊢
          omega
        omega
      · rw [hfit]
        exact ringSpace_lt ring.head ring.tail k
    · exact readBytes_writeBytes payload _ (ring.tail + sizeofTunPacket)
  · intro nbDataOk hover
    simp only [tunSendPacket, hp, hr, hc, Bool.not_true, not_true, if_false]
    rw [if_neg (by omega), if_neg (by omega), if_neg (by omega),
      if_pos (by omega)]

/-- Witness for C5: capacity 2^17, Head 0, Tail 131048 (free space 20);
a 16-byte payload (footprint 20) fits exactly and is accepted with Tail
moving to 131068; a 17-byte payload (footprint 24) is rejected with the
ring-full status and the ring unchanged. -/
theorem c5_exact_fit_boundary_witness :
    ((TunFlags.mk true true true).present = true ∧
      (131072 : Nat) = 2 ^ 17 ∧
      TUN_MIN_RING_CAPACITY ≤ 131072 ∧
      (131072 : Nat) ≤ TUN_MAX_RING_CAPACITY ∧
      (4 : Nat) ∣ (TunRing.mk 0 131048 (fun _ => 0)).head ∧
      (4 : Nat) ∣ (TunRing.mk 0 131048 (fun _ => 0)).tail ∧
      (List.replicate 16 7).length ≤ TUN_MAX_IP_PACKET_SIZE ∧
      tunAlign (sizeofTunPacket + (List.replicate 16 7).length)
        = ringSpace 0 131048 131072 ∧
      ringSpace 0 131048 131072
        < tunAlign (sizeofTunPacket + (List.replicate 17 7).length)) ∧
    ((tunSendPacket (TunFlags.mk true true true) 131072
        (TunRing.mk 0 131048 (fun _ => 0)) (List.replicate 16 7) true).1
        = .success ∧
      (tunSendPacket (TunFlags.mk true true true) 131072
        (TunRing.mk 0 131048 (fun _ => 0)) (List.replicate 16 7) true).2.tail
        = tunRingWrap (131048 + tunAlign (sizeofTunPacket + 16)) 131072) ∧
    tunSendPacket (TunFlags.mk true true true) 131072
        (TunRing.mk 0 131048 (fun _ => 0)) (List.replicate 17 7) false
      = (.bufferOverflow, TunRing.mk 0 131048 (fun _ => 0)) := by
  refine ⟨⟨by decide, by norm_num, by decide, by decide, by decide, by decide,
    by decide, by decide, by decide⟩, ?_, ?_⟩
  · have h := (c5_exact_fit_boundary (TunFlags.mk true true true) 131072 17
      (TunRing.mk 0 131048 (fun _ => 0)) (List.replicate 16 7)
      rfl rfl rfl (by norm_num) (by decide) (by decide) (by decide)
      (by decide) (by decide) (by decide) (by decide)).1 (by decide)
    exact ⟨h.1, h.2.1⟩
  · exact (c5_exact_fit_boundary (TunFlags.mk true true true) 131072 17
      (TunRing.mk 0 131048 (fun _ => 0)) (List.replicate 17 7)
      rfl rfl rfl (by norm_num) (by decide) (by decide) (by decide)
      (by decide) (by decide) (by decide) (by decide)).2 false (by decide)

/-- Evaluation of the receive step on the delivery branch: with the
adapter connected, offsets in range, a well-formed packet at Head that
classifies as IPv4 or IPv6, successful NBL allocation and the
present/running flags set, the packet is indicated upward and Head
advances by its aligned footprint. -/
theorem tunRecvStep_indicated_eq (flags : TunFlags) (capacity : Nat)
    (ring : TunRing) (d : Nat)
    (hc : flags.connected = true) (hp : flags.present = true)
    (hr : flags.running = true)
    (hh : ring.head < capacity) (hne : ring.head ≠ ring.tail)
    (ht : ring.tail < capacity)
    (hcontent : sizeofTunPacket ≤ ringContent ring.tail ring.head capacity)
    (hsize : readU32 ring.buf ring.head ≤ TUN_MAX_IP_PACKET_SIZE)
    (hfit : tunAlign (sizeofTunPacket + readU32 ring.buf ring.head)
      ≤ ringContent ring.tail ring.head capacity)
    (hclass : (20 ≤ readU32 ring.buf ring.head ∧
        ring.buf (ring.head + sizeofTunPacket) >>> 4 = 4) ∨
      (40 ≤ readU32 ring.buf ring.head ∧
        ring.buf (ring.head + sizeofTunPacket) >>> 4 = 6)) :
    tunRecvStep flags capacity ring true d =
      (.indicated (readU32 ring.buf ring.head)
        (readBytes ring.buf (ring.head + sizeofTunPacket)
          (readU32 ring.buf ring.head)),
       TunRing.mk
         (tunRingWrap
           (ring.head + tunAlign (sizeofTunPacket + readU32 ring.buf ring.head))
           capacity)
         ring.tail ring.buf, d) := by
  simp only [tunRecvStep, hc, hp, hr, Bool.not_true, not_true, if_false]
  rw [if_neg (by omega), if_neg hne, if_neg (by omega), if_neg (by omega),
    if_neg (by omega), if_neg (by omega), if_neg (by tauto)]
  simp

/-- Claim C1: a payload of length at most TUN_MAX_IP_PACKET_SIZE enqueued
by the send algorithm into a ring with aligned in-range Head and Tail and
free space at least the packet's footprint is read back exactly by the
receive algorithm: the length field read at the enqueue position equals
the payload length and the payload bytes are identical; moreover, when the
payload classifies as an IP packet, the receive step run with its Head at
the enqueue position indicates exactly that payload and consumes it. -/
theorem c1_round_trip (flags : TunFlags) (capacity k : Nat) (ring : TunRing)
    (payload : List Nat) (d : Nat)
    (hp : flags.present = true) (hr : flags.running = true)
    (hc : flags.connected = true)
    (hcap : capacity = 2 ^ k)
    (hmin : TUN_MIN_RING_CAPACITY ≤ capacity)
    (hmax : capacity ≤ TUN_MAX_RING_CAPACITY)
    (hh4 : 4 ∣ ring.head) (ht4 : 4 ∣ ring.tail)
    (hh : ring.head < capacity) (ht : ring.tail < capacity)
    (hL : payload.length ≤ TUN_MAX_IP_PACKET_SIZE)
    (hspace : tunAlign (sizeofTunPacket + payload.length) ≤
      ringSpace ring.head ring.tail capacity) :
    (tunSendPacket flags capacity ring payload true).1 = .success ∧
    readU32 (tunSendPacket flags capacity ring payload true).2.buf ring.tail
      = payload.length ∧
    readBytes (tunSendPacket flags capacity ring payload true).2.buf
      (ring.tail + sizeofTunPacket) payload.length = payload ∧
    ((20 ≤ payload.length ∧ payload.headD 0 >>> 4 = 4) ∨
     (40 ≤ payload.length ∧ payload.headD 0 >>> 4 = 6) →
      tunRecvStep flags capacity
          (TunRing.mk ring.tail
            (tunSendPacket flags capacity ring payload true).2.tail
            (tunSendPacket flags capacity ring payload true).2.buf) true d
        = (.indicated payload.length payload,
           TunRing.mk (tunSendPacket flags capacity ring payload true).2.tail
             (tunSendPacket flags capacity ring payload true).2.tail
             (tunSendPacket flags capacity ring payload true).2.buf, d)) := by
  obtain ⟨h17, h26⟩ := by
    rw [hcap] at hmin hmax
    exact capacity_exponent_bounds k hmin hmax
  have hs := tunSendPacket_success_eq flags capacity ring payload hp hr hc
    hL hh ht hspace
  rw [hs]
  -- Abbreviations for the two stores involved.
  have hfp4 : 4 ≤ tunAlign (sizeofTunPacket + payload.length) := by
    have hg := tunAlign_ge (sizeofTunPacket + payload.length)
      (by norm_num [sizeofTunPacket, TUN_MAX_IP_PACKET_SIZE, U32_val]
          at hL ⊢; omega)
    unfold sizeofTunPacket at hg ⊢
    omega
  have hfpc : tunAlign (sizeofTunPacket + payload.length) < capacity := by
    have := ringSpace_lt ring.head ring.tail k
    rw [← hcap] at this
    omega
  have hread : readU32
      (writeBytes (writeU32 ring.buf ring.tail payload.length)
        (ring.tail + sizeofTunPacket) payload) ring.tail = payload.length := by
    have e0 := writeBytes_of_lt payload
      (writeU32 ring.buf ring.tail payload.length)
      (ring.tail + sizeofTunPacket) ring.tail
      (by unfold sizeofTunPacket; omega)
    have e1 := writeBytes_of_lt payload
      (writeU32 ring.buf ring.tail payload.length)
      (ring.tail + sizeofTunPacket) (ring.tail + 1)
      (by unfold sizeofTunPacket; omega)
    have e2 := writeBytes_of_lt payload
      (writeU32 ring.buf ring.tail payload.length)
      (ring.tail + sizeofTunPacket) (ring.tail + 2)
      (by unfold sizeofTunPacket; omega)
    have e3 := writeBytes_of_lt payload
      (writeU32 ring.buf ring.tail payload.length)
      (ring.tail + sizeofTunPacket) (ring.tail + 3)
      (by unfold sizeofTunPacket; omega)
    calc readU32 (writeBytes (writeU32 ring.buf ring.tail payload.length)
          (ring.tail + sizeofTunPacket) payload) ring.tail
        = readU32 (writeU32 ring.buf ring.tail payload.length) ring.tail := by
          simp only [readU32, e0, e1, e2, e3]
      _ = payload.length := readU32_writeU32 ring.buf ring.tail payload.length
          (by rw [U32_val]; norm_num [TUN_MAX_IP_PACKET_SIZE] at hL; omega)
  have hrb : readBytes
      (writeBytes (writeU32 ring.buf ring.tail payload.length)
        (ring.tail + sizeofTunPacket) payload)
      (ring.tail + sizeofTunPacket) payload.length = payload :=
    readBytes_writeBytes payload _ (ring.tail + sizeofTunPacket)
  refine ⟨rfl, hread, hrb, ?_⟩
  intro hclass
  -- The receive step on the post-send ring, with Head at the old Tail.
  have hne : ring.tail ≠ tunRingWrap
      (ring.tail + tunAlign (sizeofTunPacket + payload.length)) capacity := by
    subst hcap
    exact (tunRingWrap_add_ne k ring.tail _ (by omega) ht (by omega) hfpc).symm
  have hcontent : ringContent
      (tunRingWrap (ring.tail + tunAlign (sizeofTunPacket + payload.length))
        capacity) ring.tail capacity
      = tunAlign (sizeofTunPacket + payload.length) := by
    subst hcap
    exact ringContent_after k ring.tail _ (by omega) ht (by omega) hfpc
  have hp0 : (writeBytes (writeU32 ring.buf ring.tail payload.length)
      (ring.tail + sizeofTunPacket) payload) (ring.tail + sizeofTunPacket)
      = payload.headD 0 := by
    rcases payload with _ | ⟨p0, rest⟩
    · exfalso
      rcases hclass with ⟨h20, _⟩ | ⟨h40, _⟩
      · simp at h20
      · simp at h40
    · have := hrb
      rw [show (p0 :: rest).length = rest.length + 1 from rfl] at this
      simp only [readBytes] at this
      have hhead := (List.cons.injEq _ _ _ _).mp this
      simp only [List.headD]
      exact hhead.1
  have hwrap_lt : tunRingWrap
      (ring.tail + tunAlign (sizeofTunPacket + payload.length)) capacity
      < capacity := by
    subst hcap
    rw [tunRingWrap_pow2]
    exact Nat.mod_lt _ (Nat.pos_pow_of_pos k (by norm_num))
  have hind := tunRecvStep_indicated_eq flags capacity
    (TunRing.mk ring.tail
      (tunRingWrap (ring.tail + tunAlign (sizeofTunPacket + payload.length))
        capacity)
      (writeBytes (writeU32 ring.buf ring.tail payload.length)
        (ring.tail + sizeofTunPacket) payload)) d
    hc hp hr ht hne hwrap_lt
    (by simpa [hcontent, hread] using hfp4)
    (by simpa [hread] using hL)
    (by simp [hcontent, hread])
    (by rw [show (TunRing.mk ring.tail _ _).buf = writeBytes
          (writeU32 ring.buf ring.tail payload.length)
          (ring.tail + sizeofTunPacket) payload from rfl] at *
        simp only [hread, hp0]
        exact hclass)
  rw [hind]
  simp only [hread, hrb, hcontent]

/-- Witness for C1: an empty ring of capacity 2^17 and a 20-byte
IPv4-shaped payload (first byte 0x45) round-trips through send and
receive. -/
theorem c1_round_trip_witness :
    ((TunFlags.mk true true true).present = true ∧
      (131072 : Nat) = 2 ^ 17 ∧
      TUN_MIN_RING_CAPACITY ≤ 131072 ∧
      (131072 : Nat) ≤ TUN_MAX_RING_CAPACITY ∧
      (69 :: List.replicate 19 0).length ≤ TUN_MAX_IP_PACKET_SIZE ∧
      tunAlign (sizeofTunPacket + (69 :: List.replicate 19 0).length)
        ≤ ringSpace 0 0 131072) ∧
    ((tunSendPacket (TunFlags.mk true true true) 131072
        (TunRing.mk 0 0 (fun _ => 0)) (69 :: List.replicate 19 0) true).1
        = .success ∧
      readU32 (tunSendPacket (TunFlags.mk true true true) 131072
        (TunRing.mk 0 0 (fun _ => 0)) (69 :: List.replicate 19 0) true).2.buf 0
        = (69 :: List.replicate 19 0).length ∧
      readBytes (tunSendPacket (TunFlags.mk true true true) 131072
        (TunRing.mk 0 0 (fun _ => 0)) (69 :: List.replicate 19 0) true).2.buf
        (0 + sizeofTunPacket) (69 :: List.replicate 19 0).length
        = 69 :: List.replicate 19 0 ∧
      ((20 ≤ (69 :: List.replicate 19 0).length ∧
          (69 :: List.replicate 19 0).headD 0 >>> 4 = 4) ∨
        (40 ≤ (69 :: List.replicate 19 0).length ∧
          (69 :: List.replicate 19 0).headD 0 >>> 4 = 6) →
        tunRecvStep (TunFlags.mk true true true) 131072
          (TunRing.mk 0
            (tunSendPacket (TunFlags.mk true true true) 131072
              (TunRing.mk 0 0 (fun _ => 0))
              (69 :: List.replicate 19 0) true).2.tail
            (tunSendPacket (TunFlags.mk true true true) 131072
              (TunRing.mk 0 0 (fun _ => 0))
              (69 :: List.replicate 19 0) true).2.buf) true 0
          = (.indicated (69 :: List.replicate 19 0).length
              (69 :: List.replicate 19 0),
            TunRing.mk
              (tunSendPacket (TunFlags.mk true true true) 131072
                (TunRing.mk 0 0 (fun _ => 0))
                (69 :: List.replicate 19 0) true).2.tail
              (tunSendPacket (TunFlags.mk true true true) 131072
                (TunRing.mk 0 0 (fun _ => 0))
                (69 :: List.replicate 19 0) true).2.tail
              (tunSendPacket (TunFlags.mk true true true) 131072
                (TunRing.mk 0 0 (fun _ => 0))
                (69 :: List.replicate 19 0) true).2.buf, 0))) :=
  ⟨⟨rfl, by norm_num, by decide, by decide, by decide, by decide⟩,
    c1_round_trip (TunFlags.mk true true true) 131072 17
      (TunRing.mk 0 0 (fun _ => 0)) (69 :: List.replicate 19 0) 0
      rfl rfl rfl (by norm_num) (by decide) (by decide) (by decide)
      (by decide) (by decide) (by decide) (by decide) (by decide)⟩

/-- Claim C8: for every power-of-two capacity within the legal bounds,
both the send path's Tail advance and the receive path's Head advance
preserve the invariant that Head and Tail are multiples of the alignment
unit and strictly less than capacity. -/
theorem c8_advance_preserves_alignment (flags : TunFlags) (capacity k : Nat)
    (ring : TunRing) (payload : List Nat) (nbDataOk nblAllocOk : Bool)
    (d : Nat)
    (hcap : capacity = 2 ^ k)
    (hmin : TUN_MIN_RING_CAPACITY ≤ capacity)
    (hmax : capacity ≤ TUN_MAX_RING_CAPACITY)
    (hh4 : 4 ∣ ring.head) (ht4 : 4 ∣ ring.tail)
    (hh : ring.head < capacity) (ht : ring.tail < capacity) :
    (4 ∣ (tunSendPacket flags capacity ring payload nbDataOk).2.head ∧
      (tunSendPacket flags capacity ring payload nbDataOk).2.head < capacity ∧
      4 ∣ (tunSendPacket flags capacity ring payload nbDataOk).2.tail ∧
      (tunSendPacket flags capacity ring payload nbDataOk).2.tail < capacity) ∧
    (4 ∣ (tunRecvStep flags capacity ring nblAllocOk d).2.1.head ∧
      (tunRecvStep flags capacity ring nblAllocOk d).2.1.head < capacity ∧
      4 ∣ (tunRecvStep flags capacity ring nblAllocOk d).2.1.tail ∧
      (tunRecvStep flags capacity ring nblAllocOk d).2.1.tail < capacity) := by
  obtain ⟨h17, h26⟩ := by
    rw [hcap] at hmin hmax
    exact capacity_exponent_bounds k hmin hmax
  subst hcap
  constructor
  · simp only [tunSendPacket]
    split_ifs <;>
      first
        | exact ⟨hh4, hh, ht4, ht⟩
        | exact ⟨hh4, hh,
            (wrap_advance k ring.tail _ (by omega) ht4 (tunAlign_dvd _)).1,
            (wrap_advance k ring.tail _ (by omega) ht4 (tunAlign_dvd _)).2⟩
  · have hcase :
        (tunRecvStep flags (2 ^ k) ring nblAllocOk d).2.1 = ring ∨
        (tunRecvStep flags (2 ^ k) ring nblAllocOk d).2.1 =
          TunRing.mk
            (tunRingWrap
              (ring.head + tunAlign (sizeofTunPacket + readU32 ring.buf ring.head))
              (2 ^ k))
            ring.tail ring.buf := by
      simp only [tunRecvStep]
      by_cases i1 : ¬ flags.connected = true
      · rw [if_pos i1]; exact Or.inl rfl
      rw [if_neg i1]
      by_cases i2 : 2 ^ k ≤ ring.head
      · rw [if_pos i2]; exact Or.inl rfl
      rw [if_neg i2]
      by_cases i3 : ring.head = ring.tail
      · rw [if_pos i3]; exact Or.inl rfl
      rw [if_neg i3]
      by_cases i4 : 2 ^ k ≤ ring.tail
      · rw [if_pos i4]; exact Or.inl rfl
      rw [if_neg i4]
      by_cases i5 : ringContent ring.tail ring.head (2 ^ k) < sizeofTunPacket
      · rw [if_pos i5]; exact Or.inl rfl
      rw [if_neg i5]
      by_cases i6 : TUN_MAX_IP_PACKET_SIZE < readU32 ring.buf ring.head
      · rw [if_pos i6]; exact Or.inl rfl
      rw [if_neg i6]
      by_cases i7 : ringContent ring.tail ring.head (2 ^ k)
          < tunAlign (sizeofTunPacket + readU32 ring.buf ring.head)
      · rw [if_pos i7]; exact Or.inl rfl
      rw [if_neg i7]
      by_cases i8 : ¬ (20 ≤ readU32 ring.buf ring.head ∧
          ring.buf (ring.head + sizeofTunPacket) >>> 4 = 4 ∨
          40 ≤ readU32 ring.buf ring.head ∧
          ring.buf (ring.head + sizeofTunPacket) >>> 4 = 6)
      · rw [if_pos i8]; exact Or.inl rfl
      rw [if_neg i8]
      by_cases i9 : ¬ nblAllocOk = true
      · rw [if_pos i9]; exact Or.inr rfl
      rw [if_neg i9]
      by_cases i10 : ¬ (flags.present = true ∧ flags.running = true)
      · rw [if_pos i10]; exact Or.inr rfl
      rw [if_neg i10]
      exact Or.inr rfl
    rcases hcase with hcase | hcase <;> rw [hcase]
    · exact ⟨hh4, hh, ht4, ht⟩
    · exact ⟨(wrap_advance k ring.head _ (by omega) hh4 (tunAlign_dvd _)).1,
        (wrap_advance k ring.head _ (by omega) hh4 (tunAlign_dvd _)).2,
        ht4, ht⟩

/-- Witness for C8 at capacity 2^17, Head 0, Tail 0, a 3-byte payload. -/
theorem c8_advance_preserves_alignment_witness :
    ((131072 : Nat) = 2 ^ 17 ∧ TUN_MIN_RING_CAPACITY ≤ 131072 ∧
      (131072 : Nat) ≤ TUN_MAX_RING_CAPACITY ∧ (4 : Nat) ∣ 0 ∧
      (0 : Nat) < 131072) ∧
    ((4 ∣ (tunSendPacket (TunFlags.mk true true true) 131072
        (TunRing.mk 0 0 (fun _ => 0)) [1, 2, 3] true).2.head ∧
      (tunSendPacket (TunFlags.mk true true true) 131072
        (TunRing.mk 0 0 (fun _ => 0)) [1, 2, 3] true).2.head < 131072 ∧
      4 ∣ (tunSendPacket (TunFlags.mk true true true) 131072
        (TunRing.mk 0 0 (fun _ => 0)) [1, 2, 3] true).2.tail ∧
      (tunSendPacket (TunFlags.mk true true true) 131072
        (TunRing.mk 0 0 (fun _ => 0)) [1, 2, 3] true).2.tail < 131072) ∧
    (4 ∣ (tunRecvStep (TunFlags.mk true true true) 131072
        (TunRing.mk 0 0 (fun _ => 0)) true 0).2.1.head ∧
      (tunRecvStep (TunFlags.mk true true true) 131072
        (TunRing.mk 0 0 (fun _ => 0)) true 0).2.1.head < 131072 ∧
      4 ∣ (tunRecvStep (TunFlags.mk true true true) 131072
        (TunRing.mk 0 0 (fun _ => 0)) true 0).2.1.tail ∧
      (tunRecvStep (TunFlags.mk true true true) 131072
        (TunRing.mk 0 0 (fun _ => 0)) true 0).2.1.tail < 131072)) :=
  ⟨⟨by norm_num, by decide, by decide, by decide, by decide⟩,
    c8_advance_preserves_alignment (TunFlags.mk true true true) 131072 17
      (TunRing.mk 0 0 (fun _ => 0)) [1, 2, 3] true true 0
      (by norm_num) (by decide) (by decide) (by decide) (by decide)
      (by decide) (by decide)⟩

/-- Claim C9: when upward delivery of a decoded inbound packet fails —
NBL allocation failure or present/running not both set — the receive step
still counts the discard and advances Head past the packet by its full
aligned footprint, so the packet is consumed exactly once and never
re-read. -/
theorem c9_discard_advances_head (flags : TunFlags) (capacity : Nat)
    (ring : TunRing) (nblAllocOk : Bool) (d : Nat)
    (hc : flags.connected = true)
    (hh : ring.head < capacity) (hne : ring.head ≠ ring.tail)
    (ht : ring.tail < capacity)
    (hcontent : sizeofTunPacket ≤ ringContent ring.tail ring.head capacity)
    (hsize : readU32 ring.buf ring.head ≤ TUN_MAX_IP_PACKET_SIZE)
    (hfit : tunAlign (sizeofTunPacket + readU32 ring.buf ring.head)
      ≤ ringContent ring.tail ring.head capacity)
    (hclass : (20 ≤ readU32 ring.buf ring.head ∧
        ring.buf (ring.head + sizeofTunPacket) >>> 4 = 4) ∨
      (40 ≤ readU32 ring.buf ring.head ∧
        ring.buf (ring.head + sizeofTunPacket) >>> 4 = 6))
    (hfail : nblAllocOk = false ∨
      ¬ (flags.present = true ∧ flags.running = true)) :
    tunRecvStep flags capacity ring nblAllocOk d
      = (.discarded (readU32 ring.buf ring.head),
         TunRing.mk
           (tunRingWrap
             (ring.head + tunAlign (sizeofTunPacket + readU32 ring.buf ring.head))
             capacity)
           ring.tail ring.buf,
         d + 1) := by
  simp only [tunRecvStep, hc, Bool.not_true, not_true, if_false]
  rw [if_neg (by omega), if_neg hne, if_neg (by omega), if_neg (by omega),
    if_neg (by omega), if_neg (by omega), if_neg (by tauto)]
  rcases Bool.eq_false_or_eq_true nblAllocOk with hb | hb <;> subst hb
  · have hflags : ¬ (flags.present = true ∧ flags.running = true) := by
      rcases hfail with hcontra | hok
      · exact absurd hcontra (by decide)
      · exact hok
    rw [if_neg (by decide), if_pos (fun hand => hflags ⟨hand.1, hand.2⟩)]
  · rw [if_pos (by decide)]

/-- Witness for C9: a 20-byte IPv4 packet queued at Head 0 with the
adapter paused (running = false) is discarded and Head advances to 24. -/
theorem c9_discard_advances_head_witness :
    ((TunFlags.mk false true true).connected = true ∧
      (0 : Nat) < 131072 ∧ (0 : Nat) ≠ 24 ∧ (24 : Nat) < 131072 ∧
      sizeofTunPacket ≤ ringContent 24 0 131072 ∧
      readU32 (fun i => if i = 0 then 20 else if i = 4 then 69 else 0) 0
        ≤ TUN_MAX_IP_PACKET_SIZE ∧
      ¬ ((TunFlags.mk false true true).present = true ∧
        (TunFlags.mk false true true).running = true)) ∧
    tunRecvStep (TunFlags.mk false true true) 131072
      (TunRing.mk 0 24 (fun i => if i = 0 then 20 else if i = 4 then 69 else 0))
      true 0
      = (.discarded (readU32
            (fun i => if i = 0 then 20 else if i = 4 then 69 else 0) 0),
         TunRing.mk
           (tunRingWrap (0 + tunAlign (sizeofTunPacket + readU32
             (fun i => if i = 0 then 20 else if i = 4 then 69 else 0) 0))
             131072)
           24 (fun i => if i = 0 then 20 else if i = 4 then 69 else 0),
         0 + 1) :=
  ⟨⟨rfl, by decide, by decide, by decide, by decide, by decide, by decide⟩,
    c9_discard_advances_head (TunFlags.mk false true true) 131072
      (TunRing.mk 0 24 (fun i => if i = 0 then 20 else if i = 4 then 69 else 0))
      true 0 rfl (by decide) (by decide) (by decide) (by decide) (by decide)
      (by decide) (by decide) (Or.inr (by decide))⟩

/-- Exhaustive case analysis of the send path: on every rejecting branch
the ring is returned untouched, except the NdisGetDataBuffer-failure
branch, which leaves the already-written length field; the only branch
that advances Tail is the success branch. -/
theorem tunSendPacket_cases (flags : TunFlags) (capacity : Nat)
    (ring : TunRing) (payload : List Nat) (nbDataOk : Bool) :
    ((tunSendPacket flags capacity ring payload nbDataOk).1 ≠ .success ∧
      ((tunSendPacket flags capacity ring payload nbDataOk).2 = ring ∨
        (tunSendPacket flags capacity ring payload nbDataOk).2 =
          TunRing.mk ring.head ring.tail
            (writeU32 ring.buf ring.tail payload.length))) ∨
    ((tunSendPacket flags capacity ring payload nbDataOk).1 = .success ∧
      (tunSendPacket flags capacity ring payload nbDataOk).2 =
        TunRing.mk ring.head
          (tunRingWrap (ring.tail + tunAlign (sizeofTunPacket + payload.length))
            capacity)
          (writeBytes (writeU32 ring.buf ring.tail payload.length)
            (ring.tail + sizeofTunPacket) payload)) := by
  simp only [tunSendPacket]
  by_cases i1 : ¬ flags.present = true
  · rw [if_pos i1]; exact Or.inl ⟨by simp, Or.inl rfl⟩
  rw [if_neg i1]
  by_cases i2 : ¬ flags.running = true
  · rw [if_pos i2]; exact Or.inl ⟨by simp, Or.inl rfl⟩
  rw [if_neg i2]
  by_cases i3 : ¬ flags.connected = true
  · rw [if_pos i3]; exact Or.inl ⟨by simp, Or.inl rfl⟩
  rw [if_neg i3]
  by_cases i4 : TUN_MAX_IP_PACKET_SIZE < payload.length
  · rw [if_pos i4]; exact Or.inl ⟨by simp, Or.inl rfl⟩
  rw [if_neg i4]
  by_cases i5 : capacity ≤ ring.head
  · rw [if_pos i5]; exact Or.inl ⟨by simp, Or.inl rfl⟩
  rw [if_neg i5]
  by_cases i6 : capacity ≤ ring.tail
  · rw [if_pos i6]; exact Or.inl ⟨by simp, Or.inl rfl⟩
  rw [if_neg i6]
  by_cases i7 : ringSpace ring.head ring.tail capacity
      < tunAlign (sizeofTunPacket + payload.length)
  · rw [if_pos i7]; exact Or.inl ⟨by simp, Or.inl rfl⟩
  rw [if_neg i7]
  by_cases i8 : ¬ nbDataOk = true
  · rw [if_pos i8]; exact Or.inl ⟨by simp, Or.inr rfl⟩
  rw [if_neg i8]
  exact Or.inr ⟨rfl, rfl⟩

/-- Counterexample to claim C4 as stated: with all flags set, ample free
space and a 1-byte payload, a NdisGetDataBuffer failure rejects the packet
with the reused ring-full status (NDIS_STATUS_BUFFER_OVERFLOW, which does
not identify the actual condition — the ring was not full), yet the
packet's length field has already been written into the ring at Tail:
byte 0 of the ring changes from 0 to 1. -/
theorem c4_reject_partial_write_counterexample :
    (tunSendPacket (TunFlags.mk true true true) 131072
        (TunRing.mk 0 0 (fun _ => 0)) [7] false).1 = .bufferOverflow ∧
    (tunSendPacket (TunFlags.mk true true true) 131072
        (TunRing.mk 0 0 (fun _ => 0)) [7] false).1 ≠ .success ∧
    tunAlign (sizeofTunPacket + 1) ≤ ringSpace 0 0 131072 ∧
    (tunSendPacket (TunFlags.mk true true true) 131072
        (TunRing.mk 0 0 (fun _ => 0)) [7] false).2.buf 0 = 1 ∧
    (TunRing.mk 0 0 (fun _ => (0 : Nat))).buf 0 = 0 := by
  refine ⟨by decide, by decide, by decide, by decide, rfl⟩

/-- Claim C4 (amended): every rejected packet is marked with the status
specific to the first failing check — adapter removed, paused,
disconnected, invalid length, ring broken, or ring full — and Head and
Tail are never advanced by a rejected packet; on the checked-condition
rejections nothing is written to the ring, while the remaining rejection
path (NdisGetDataBuffer failure) reuses the ring-full status after the
length field has already been stored at Tail. -/
theorem c4_reject_statuses (flags : TunFlags) (capacity : Nat)
    (ring : TunRing) (payload : List Nat) (nbDataOk : Bool) :
    ((tunSendPacket flags capacity ring payload nbDataOk).1 ≠ .success →
      (tunSendPacket flags capacity ring payload nbDataOk).2.head = ring.head ∧
      (tunSendPacket flags capacity ring payload nbDataOk).2.tail = ring.tail) ∧
    (¬ flags.present = true →
      tunSendPacket flags capacity ring payload nbDataOk
        = (.adapterRemoved, ring)) ∧
    (flags.present = true → ¬ flags.running = true →
      tunSendPacket flags capacity ring payload nbDataOk = (.paused, ring)) ∧
    (flags.present = true → flags.running = true → ¬ flags.connected = true →
      tunSendPacket flags capacity ring payload nbDataOk
        = (.mediaDisconnected, ring)) ∧
    (flags.present = true → flags.running = true → flags.connected = true →
      TUN_MAX_IP_PACKET_SIZE < payload.length →
      tunSendPacket flags capacity ring payload nbDataOk
        = (.invalidLength, ring)) ∧
    (flags.present = true → flags.running = true → flags.connected = true →
      payload.length ≤ TUN_MAX_IP_PACKET_SIZE →
      (capacity ≤ ring.head ∨ capacity ≤ ring.tail) →
      tunSendPacket flags capacity ring payload nbDataOk
        = (.adapterNotReady, ring)) ∧
    (flags.present = true → flags.running = true → flags.connected = true →
      payload.length ≤ TUN_MAX_IP_PACKET_SIZE →
      ring.head < capacity → ring.tail < capacity →
      ringSpace ring.head ring.tail capacity
        < tunAlign (sizeofTunPacket + payload.length) →
      tunSendPacket flags capacity ring payload nbDataOk
        = (.bufferOverflow, ring)) ∧
    (flags.present = true → flags.running = true → flags.connected = true →
      payload.length ≤ TUN_MAX_IP_PACKET_SIZE →
      ring.head < capacity → ring.tail < capacity →
      tunAlign (sizeofTunPacket + payload.length)
        ≤ ringSpace ring.head ring.tail capacity →
      nbDataOk = false →
      (tunSendPacket flags capacity ring payload nbDataOk).1 = .bufferOverflow ∧
      (tunSendPacket flags capacity ring payload nbDataOk).2.head = ring.head ∧
      (tunSendPacket flags capacity ring payload nbDataOk).2.tail = ring.tail) := by
  refine ⟨?_, ?_, ?_, ?_, ?_, ?_, ?_, ?_⟩
  · intro hns
    rcases tunSendPacket_cases flags capacity ring payload nbDataOk with
      ⟨_, hring | hring⟩ | ⟨hsucc, _⟩
    · rw [hring]; exact ⟨rfl, rfl⟩
    · rw [hring]; exact ⟨rfl, rfl⟩
    · exact absurd hsucc hns
  · intro h1
    simp only [tunSendPacket]
    rw [if_pos h1]
  · intro h1 h2
    simp only [tunSendPacket]
    rw [if_neg (by simp [h1]), if_pos h2]
  · intro h1 h2 h3
    simp only [tunSendPacket]
    rw [if_neg (by simp [h1]), if_neg (by simp [h2]), if_pos h3]
  · intro h1 h2 h3 h4
    simp only [tunSendPacket]
    rw [if_neg (by simp [h1]), if_neg (by simp [h2]), if_neg (by simp [h3]),
      if_pos h4]
  · intro h1 h2 h3 h4 h5
    simp only [tunSendPacket]
    rw [if_neg (by simp [h1]), if_neg (by simp [h2]), if_neg (by simp [h3]),
      if_neg (by omega)]
    rcases h5 with h5 | h5
    · rw [if_pos h5]
    · by_cases h6 : capacity ≤ ring.head
      · rw [if_pos h6]
      · rw [if_neg h6, if_pos h5]
  · intro h1 h2 h3 h4 h5 h6 h7
    simp only [tunSendPacket]
    rw [if_neg (by simp [h1]), if_neg (by simp [h2]), if_neg (by simp [h3]),
      if_neg (by omega), if_neg (by omega), if_neg (by omega), if_pos h7]
  · intro h1 h2 h3 h4 h5 h6 h7 h8
    subst h8
    simp only [tunSendPacket]
    rw [if_neg (by simp [h1]), if_neg (by simp [h2]), if_neg (by simp [h3]),
      if_neg (by omega), if_neg (by omega), if_neg (by omega),
      if_neg (by omega), if_pos (by decide)]
    exact ⟨rfl, rfl, rfl⟩

/-- Witness for the amended C4: a paused adapter rejects with the paused
status and leaves the ring untouched. -/
theorem c4_reject_statuses_witness :
    ((TunFlags.mk false true true).present = true ∧
      ¬ (TunFlags.mk false true true).running = true) ∧
    tunSendPacket (TunFlags.mk false true true) 131072
        (TunRing.mk 0 0 (fun _ => 0)) [7] true
      = (.paused, TunRing.mk 0 0 (fun _ => 0)) :=
  ⟨⟨rfl, by decide⟩,
    (c4_reject_statuses (TunFlags.mk false true true) 131072
        (TunRing.mk 0 0 (fun _ => 0)) [7] true).2.2.1 rfl (by decide)⟩

/-- Claim C7: teardown invoked with a file object different from the
recorded owner — in particular any second invocation after a successful
teardown has cleared the owner — is a no-op: the context is unchanged and
no event is signaled, no link-state indication is made, no thread is
waited on or closed, and no resource is released. -/
theorem c7_unregister_nonowner_noop (c : DeviceCtx) (owner : Nat)
    (h : owner ≠ c.owner) :
    tunDispatchUnregisterBuffers c owner = (c, noUnregEffects) := by
  unfold tunDispatchUnregisterBuffers
  rw [if_pos (Ne.symm h)]

/-- Witness for C7: after a completed teardown the owner field is 0, so a
second close with the same file object (5) is a no-op. -/
theorem c7_unregister_nonowner_noop_witness :
    ((5 : Nat) ≠ (DeviceCtx.mk false 0 131072 131072 false false false false
      false false false 4294967295).owner) ∧
    tunDispatchUnregisterBuffers
        (DeviceCtx.mk false 0 131072 131072 false false false false false
          false false 4294967295) 5
      = (DeviceCtx.mk false 0 131072 131072 false false false false false
          false false 4294967295, noUnregEffects) :=
  ⟨by decide,
    c7_unregister_nonowner_noop
      (DeviceCtx.mk false 0 131072 131072 false false false false false
        false false 4294967295) 5 (by decide)⟩

/-- Claim C10: the register-rings operation claims ownership by
compare-and-swap before validating its input; a request whose buffer
length differs from sizeof(TUN_REGISTER_RINGS) fails with
STATUS_INVALID_PARAMETER and the owner is reset to null, so the context is
exactly as before; and when an owner is already recorded, even a malformed
request is refused with the already-initialized status before any
validation. -/
theorem c10_register_bad_length (c : DeviceCtx) (inp : RegInput)
    (ext : RegExt) (fileObject : Nat)
    (howner : c.owner = 0)
    (hlen : inp.inputBufferLength ≠ sizeofTunRegisterRings) :
    tunDispatchRegisterBuffers c inp ext fileObject = (.invalidParameter, c) ∧
    (∀ c' : DeviceCtx, c'.owner ≠ 0 →
      tunDispatchRegisterBuffers c' inp ext fileObject
        = (.alreadyRegistered, c')) := by
  constructor
  · simp only [tunDispatchRegisterBuffers]
    rw [if_neg (by simp [howner]), if_pos hlen]
    simp only [cleanupResetOwner]
    rcases c with ⟨conn, own, rest⟩
    simp_all
  · intro c' hbusy
    simp only [tunDispatchRegisterBuffers]
    rw [if_pos hbusy]

/-- Witness for C10: a fresh context and a 47-byte input buffer. -/
theorem c10_register_bad_length_witness :
    ((DeviceCtx.mk false 0 0 0 false false false false false false false
        0).owner = 0 ∧
      (RegInput.mk 47 200000 1 1 200000 1 1).inputBufferLength
        ≠ sizeofTunRegisterRings) ∧
    tunDispatchRegisterBuffers
        (DeviceCtx.mk false 0 0 0 false false false false false false false 0)
        (RegInput.mk 47 200000 1 1 200000 1 1)
        (RegExt.mk true true true true true true true true true) 5
      = (.invalidParameter,
        DeviceCtx.mk false 0 0 0 false false false false false false false
          0) :=
  ⟨⟨rfl, by decide⟩,
    (c10_register_bad_length
      (DeviceCtx.mk false 0 0 0 false false false false false false false 0)
      (RegInput.mk 47 200000 1 1 200000 1 1)
      (RegExt.mk true true true true true true true true true) 5
      rfl (by decide)).1⟩

/-- Counterexample to claim C3 as stated: registration from a fresh
context with a well-sized input buffer but an invalid send ring size
(262156 bytes, yielding capacity 0x30000, which is not a power of two)
fails with STATUS_INVALID_PARAMETER — yet the stored send ring Capacity
field now holds 196608 instead of its previous value 0, so the adapter
context is not exactly as it was before the call. -/
theorem c3_capacity_field_modified_counterexample :
    (tunDispatchRegisterBuffers
        (DeviceCtx.mk false 0 0 0 false false false false false false false 0)
        (RegInput.mk 48 262156 1 1 262156 1 1)
        (RegExt.mk true true true true true true true true true) 5).1
      = .invalidParameter ∧
    (tunDispatchRegisterBuffers
        (DeviceCtx.mk false 0 0 0 false false false false false false false 0)
        (RegInput.mk 48 262156 1 1 262156 1 1)
        (RegExt.mk true true true true true true true true true) 5).1
      ≠ .success ∧
    (DeviceCtx.mk false 0 0 0 false false false false false false false
      (0 : Nat)).sendCapacity = 0 ∧
    (tunDispatchRegisterBuffers
        (DeviceCtx.mk false 0 0 0 false false false false false false false 0)
        (RegInput.mk 48 262156 1 1 262156 1 1)
        (RegExt.mk true true true true true true true true true) 5).2.sendCapacity
      = 196608 := by
  refine ⟨by decide, by decide, rfl, by decide⟩

/-- Shared helper: every failing exit of TunDispatchRegisterBuffers from an
unregistered context runs a cleanup chain that clears the owner and leaves
the connected flag clear and all kernel resources released. -/
theorem register_failure_leaves_clean (c : DeviceCtx) (inp : RegInput)
    (ext : RegExt) (fileObject : Nat)
    (howner : c.owner = 0) (hconn : c.connected = false)
    (hse : c.sendEventRefHeld = false) (hsm : c.sendMdlHeld = false)
    (hsp : c.sendPagesPinned = false)
    (hre : c.recvEventRefHeld = false) (hrm : c.recvMdlHeld = false)
    (hrp : c.recvPagesPinned = false)
    (hth : c.recvThreadHandleHeld = false)
    (hfail : (tunDispatchRegisterBuffers c inp ext fileObject).1 ≠ .success) :
    (tunDispatchRegisterBuffers c inp ext fileObject).2.owner = 0 ∧
    (tunDispatchRegisterBuffers c inp ext fileObject).2.connected = false ∧
    (tunDispatchRegisterBuffers c inp ext fileObject).2.sendEventRefHeld = false ∧
    (tunDispatchRegisterBuffers c inp ext fileObject).2.sendMdlHeld = false ∧
    (tunDispatchRegisterBuffers c inp ext fileObject).2.sendPagesPinned = false ∧
    (tunDispatchRegisterBuffers c inp ext fileObject).2.recvEventRefHeld = false ∧
    (tunDispatchRegisterBuffers c inp ext fileObject).2.recvMdlHeld = false ∧
    (tunDispatchRegisterBuffers c inp ext fileObject).2.recvPagesPinned = false ∧
    (tunDispatchRegisterBuffers c inp ext fileObject).2.recvThreadHandleHeld
      = false := by
  simp only [tunDispatchRegisterBuffers]
  rw [if_neg (by simp [howner])]
  by_cases j2 : inp.inputBufferLength ≠ sizeofTunRegisterRings
  · rw [if_pos j2]
    simp_all [cleanupResetOwner]
  rw [if_neg j2]
  by_cases j3 : tunRingCapacity inp.sendRingSize < TUN_MIN_RING_CAPACITY ∨
      TUN_MAX_RING_CAPACITY < tunRingCapacity inp.sendRingSize ∨
      popCount64 (tunRingCapacity inp.sendRingSize) ≠ 1 ∨
      inp.sendTailMoved = 0 ∨ inp.sendRing = 0
  · rw [if_pos j3]
    simp_all [cleanupResetOwner]
  rw [if_neg j3]
  by_cases j4 : ¬ ext.sendObjRefOk = true
  · rw [if_pos j4]
    simp_all [cleanupResetOwner]
  rw [if_neg j4]
  by_cases j5 : ¬ ext.sendMdlOk = true
  · rw [if_pos j5]
    simp_all [cleanupSendTailMoved, cleanupResetOwner]
  rw [if_neg j5]
  by_cases j6 : ¬ ext.sendProbeOk = true
  · rw [if_pos j6]
    simp_all [cleanupSendMdl, cleanupSendTailMoved, cleanupResetOwner]
  rw [if_neg j6]
  by_cases j7 : ¬ ext.sendMapOk = true
  · rw [if_pos j7]
    simp_all [cleanupSendUnlockPages, cleanupSendMdl, cleanupSendTailMoved,
      cleanupResetOwner]
  rw [if_neg j7]
  by_cases j8 : tunRingCapacity inp.recvRingSize < TUN_MIN_RING_CAPACITY ∨
      TUN_MAX_RING_CAPACITY < tunRingCapacity inp.recvRingSize ∨
      popCount64 (tunRingCapacity inp.recvRingSize) ≠ 1 ∨
      inp.recvTailMoved = 0 ∨ inp.recvRing = 0
  · rw [if_pos j8]
    simp_all [cleanupSendUnlockPages, cleanupSendMdl, cleanupSendTailMoved,
      cleanupResetOwner]
  rw [if_neg j8]
  by_cases j9 : ¬ ext.recvObjRefOk = true
  · rw [if_pos j9]
    simp_all [cleanupSendUnlockPages, cleanupSendMdl, cleanupSendTailMoved,
      cleanupResetOwner]
  rw [if_neg j9]
  by_cases j10 : ¬ ext.recvMdlOk = true
  · rw [if_pos j10]
    simp_all [cleanupReceiveTailMoved, cleanupSendUnlockPages, cleanupSendMdl,
      cleanupSendTailMoved, cleanupResetOwner]
  rw [if_neg j10]
  by_cases j11 : ¬ ext.recvProbeOk = true
  · rw [if_pos j11]
    simp_all [cleanupReceiveMdl, cleanupReceiveTailMoved,
      cleanupSendUnlockPages, cleanupSendMdl, cleanupSendTailMoved,
      cleanupResetOwner]
  rw [if_neg j11]
  by_cases j12 : ¬ ext.recvMapOk = true
  · rw [if_pos j12]
    simp_all [cleanupReceiveUnlockPages, cleanupReceiveMdl,
      cleanupReceiveTailMoved, cleanupSendUnlockPages, cleanupSendMdl,
      cleanupSendTailMoved, cleanupResetOwner]
  rw [if_neg j12]
  by_cases j13 : ¬ ext.threadOk = true
  · rw [if_pos j13]
    simp_all [cleanupFlagsConnected, cleanupReceiveUnlockPages,
      cleanupReceiveMdl, cleanupReceiveTailMoved, cleanupSendUnlockPages,
      cleanupSendMdl, cleanupSendTailMoved, cleanupResetOwner]
  rw [if_neg j13]
  exfalso
  apply hfail
  simp only [tunDispatchRegisterBuffers]
  rw [if_neg (by simp [howner]), if_neg j2, if_neg j3, if_neg j4, if_neg j5,
    if_neg j6, if_neg j7, if_neg j8, if_neg j9, if_neg j10, if_neg j11,
    if_neg j12, if_neg j13]

/-- Claim C3 (amended): when registration fails from an unregistered
context, no owner is recorded, the connected flag is clear, no pages
remain pinned, no MDL or notification-event reference is retained and no
receive-thread handle is held — but the scratch ring Capacity fields may
retain values written during the failed attempt. -/
theorem c3_register_failure_cleanup (c : DeviceCtx) (inp : RegInput)
    (ext : RegExt) (fileObject : Nat)
    (howner : c.owner = 0) (hconn : c.connected = false)
    (hse : c.sendEventRefHeld = false) (hsm : c.sendMdlHeld = false)
    (hsp : c.sendPagesPinned = false)
    (hre : c.recvEventRefHeld = false) (hrm : c.recvMdlHeld = false)
    (hrp : c.recvPagesPinned = false)
    (hth : c.recvThreadHandleHeld = false)
    (hfail : (tunDispatchRegisterBuffers c inp ext fileObject).1 ≠ .success) :
    (tunDispatchRegisterBuffers c inp ext fileObject).2.owner = 0 ∧
    (tunDispatchRegisterBuffers c inp ext fileObject).2.connected = false ∧
    (tunDispatchRegisterBuffers c inp ext fileObject).2.sendEventRefHeld = false ∧
    (tunDispatchRegisterBuffers c inp ext fileObject).2.sendMdlHeld = false ∧
    (tunDispatchRegisterBuffers c inp ext fileObject).2.sendPagesPinned = false ∧
    (tunDispatchRegisterBuffers c inp ext fileObject).2.recvEventRefHeld = false ∧
    (tunDispatchRegisterBuffers c inp ext fileObject).2.recvMdlHeld = false ∧
    (tunDispatchRegisterBuffers c inp ext fileObject).2.recvPagesPinned = false ∧
    (tunDispatchRegisterBuffers c inp ext fileObject).2.recvThreadHandleHeld
      = false :=
  register_failure_leaves_clean c inp ext fileObject howner hconn hse hsm hsp
    hre hrm hrp hth hfail

/-- Witness for the amended C3: the counterexample input (bad send ring
size from a fresh context) leaves a fully clean context apart from the
scratch capacity field. -/
theorem c3_register_failure_cleanup_witness :
    ((DeviceCtx.mk false 0 0 0 false false false false false false false
        (0 : Nat)).owner = 0 ∧
      (tunDispatchRegisterBuffers
        (DeviceCtx.mk false 0 0 0 false false false false false false false 0)
        (RegInput.mk 48 262156 1 1 262156 1 1)
        (RegExt.mk true true true true true true true true true) 5).1
        ≠ .success) ∧
    ((tunDispatchRegisterBuffers
        (DeviceCtx.mk false 0 0 0 false false false false false false false 0)
        (RegInput.mk 48 262156 1 1 262156 1 1)
        (RegExt.mk true true true true true true true true true) 5).2.owner
        = 0 ∧
      (tunDispatchRegisterBuffers
        (DeviceCtx.mk false 0 0 0 false false false false false false false 0)
        (RegInput.mk 48 262156 1 1 262156 1 1)
        (RegExt.mk true true true true true true true true true) 5).2.connected
        = false) :=
  ⟨⟨rfl, by decide⟩,
    by
      have h := c3_register_failure_cleanup
        (DeviceCtx.mk false 0 0 0 false false false false false false false 0)
        (RegInput.mk 48 262156 1 1 262156 1 1)
        (RegExt.mk true true true true true true true true true) 5
        rfl rfl rfl rfl rfl rfl rfl rfl rfl (by decide)
      exact ⟨h.1, h.2.1⟩⟩

/-- Claim C6: registration fails with STATUS_INVALID_PARAMETER whenever
the capacity derived from either ring's declared size is below the
minimum, above the maximum, or not a power of two — for the receive ring,
whenever the send side passed validation and its resource acquisitions
succeeded — and in every such case no registration takes effect: the
owner is cleared, connected stays clear and no resource is retained. -/
theorem c6_capacity_validation (c : DeviceCtx) (inp : RegInput)
    (ext : RegExt) (fileObject : Nat)
    (howner : c.owner = 0) (hconn : c.connected = false)
    (hse : c.sendEventRefHeld = false) (hsm : c.sendMdlHeld = false)
    (hsp : c.sendPagesPinned = false)
    (hre : c.recvEventRefHeld = false) (hrm : c.recvMdlHeld = false)
    (hrp : c.recvPagesPinned = false)
    (hth : c.recvThreadHandleHeld = false)
    (hlen : inp.inputBufferLength = sizeofTunRegisterRings) :
    ((tunRingCapacity inp.sendRingSize < TUN_MIN_RING_CAPACITY ∨
      TUN_MAX_RING_CAPACITY < tunRingCapacity inp.sendRingSize ∨
      ¬ ∃ j, tunRingCapacity inp.sendRingSize = 2 ^ j) →
      (tunDispatchRegisterBuffers c inp ext fileObject).1 = .invalidParameter ∧
      (tunDispatchRegisterBuffers c inp ext fileObject).2.owner = 0 ∧
      (tunDispatchRegisterBuffers c inp ext fileObject).2.connected = false ∧
      (tunDispatchRegisterBuffers c inp ext fileObject).2.sendPagesPinned = false ∧
      (tunDispatchRegisterBuffers c inp ext fileObject).2.recvPagesPinned = false ∧
      (tunDispatchRegisterBuffers c inp ext fileObject).2.recvThreadHandleHeld
        = false) ∧
    (¬ (tunRingCapacity inp.sendRingSize < TUN_MIN_RING_CAPACITY ∨
        TUN_MAX_RING_CAPACITY < tunRingCapacity inp.sendRingSize ∨
        popCount64 (tunRingCapacity inp.sendRingSize) ≠ 1 ∨
        inp.sendTailMoved = 0 ∨ inp.sendRing = 0) →
      ext.sendObjRefOk = true → ext.sendMdlOk = true →
      ext.sendProbeOk = true → ext.sendMapOk = true →
      (tunRingCapacity inp.recvRingSize < TUN_MIN_RING_CAPACITY ∨
        TUN_MAX_RING_CAPACITY < tunRingCapacity inp.recvRingSize ∨
        ¬ ∃ j, tunRingCapacity inp.recvRingSize = 2 ^ j) →
      (tunDispatchRegisterBuffers c inp ext fileObject).1 = .invalidParameter ∧
      (tunDispatchRegisterBuffers c inp ext fileObject).2.owner = 0 ∧
      (tunDispatchRegisterBuffers c inp ext fileObject).2.connected = false ∧
      (tunDispatchRegisterBuffers c inp ext fileObject).2.sendPagesPinned = false ∧
      (tunDispatchRegisterBuffers c inp ext fileObject).2.recvPagesPinned = false ∧
      (tunDispatchRegisterBuffers c inp ext fileObject).2.recvThreadHandleHeld
        = false) := by
  have hbridge : ∀ n : Nat, n < U32 → ¬ (∃ j, n = 2 ^ j) → popCount64 n ≠ 1 := by
    intro n hn hnp
    intro h1
    exact hnp ((popCount64_eq_one_iff n
      (lt_of_lt_of_le hn (by rw [U32_val]; norm_num))).mp h1)
  constructor
  · intro hbad
    have hguard : tunRingCapacity inp.sendRingSize < TUN_MIN_RING_CAPACITY ∨
        TUN_MAX_RING_CAPACITY < tunRingCapacity inp.sendRingSize ∨
        popCount64 (tunRingCapacity inp.sendRingSize) ≠ 1 ∨
        inp.sendTailMoved = 0 ∨ inp.sendRing = 0 := by
      rcases hbad with h | h | h
      · exact Or.inl h
      · exact Or.inr (Or.inl h)
      · exact Or.inr (Or.inr (Or.inl
          (hbridge _ (tunRingCapacity_lt inp.sendRingSize) h)))
    have hstat : (tunDispatchRegisterBuffers c inp ext fileObject).1
        = .invalidParameter := by
      simp only [tunDispatchRegisterBuffers]
      rw [if_neg (by simp [howner]), if_neg (by simp [hlen]), if_pos hguard]
    have hclean := register_failure_leaves_clean c inp ext fileObject howner
      hconn hse hsm hsp hre hrm hrp hth (by simp [hstat])
    exact ⟨hstat, hclean.1, hclean.2.1, hclean.2.2.2.2.1,
      hclean.2.2.2.2.2.2.2.1, hclean.2.2.2.2.2.2.2.2⟩
  · intro hsendok hobj hmdl hprobe hmap hbad
    have hguard : tunRingCapacity inp.recvRingSize < TUN_MIN_RING_CAPACITY ∨
        TUN_MAX_RING_CAPACITY < tunRingCapacity inp.recvRingSize ∨
        popCount64 (tunRingCapacity inp.recvRingSize) ≠ 1 ∨
        inp.recvTailMoved = 0 ∨ inp.recvRing = 0 := by
      rcases hbad with h | h | h
      · exact Or.inl h
      · exact Or.inr (Or.inl h)
      · exact Or.inr (Or.inr (Or.inl
          (hbridge _ (tunRingCapacity_lt inp.recvRingSize) h)))
    have hstat : (tunDispatchRegisterBuffers c inp ext fileObject).1
        = .invalidParameter := by
      simp only [tunDispatchRegisterBuffers]
      rw [if_neg (by simp [howner]), if_neg (by simp [hlen]),
        if_neg hsendok, if_neg (by simp [hobj]), if_neg (by simp [hmdl]),
        if_neg (by simp [hprobe]), if_neg (by simp [hmap]), if_pos hguard]
    have hclean := register_failure_leaves_clean c inp ext fileObject howner
      hconn hse hsm hsp hre hrm hrp hth (by simp [hstat])
    exact ⟨hstat, hclean.1, hclean.2.1, hclean.2.2.2.2.1,
      hclean.2.2.2.2.2.2.2.1, hclean.2.2.2.2.2.2.2.2⟩

/-- Witness for C6: a send ring size of 131084 bytes yields capacity
65536, below the 128 KiB minimum, so registration from a fresh context
fails with the invalid-parameter status and records nothing. -/
theorem c6_capacity_validation_witness :
    ((DeviceCtx.mk false 0 0 0 false false false false false false false
        (0 : Nat)).owner = 0 ∧
      tunRingCapacity 131084 < TUN_MIN_RING_CAPACITY) ∧
    ((tunDispatchRegisterBuffers
        (DeviceCtx.mk false 0 0 0 false false false false false false false 0)
        (RegInput.mk 48 131084 1 1 131084 1 1)
        (RegExt.mk true true true true true true true true true) 5).1
        = .invalidParameter ∧
      (tunDispatchRegisterBuffers
        (DeviceCtx.mk false 0 0 0 false false false false false false false 0)
        (RegInput.mk 48 131084 1 1 131084 1 1)
        (RegExt.mk true true true true true true true true true) 5).2.owner
        = 0) :=
  ⟨⟨rfl, by decide⟩,
    by
      have h := (c6_capacity_validation
        (DeviceCtx.mk false 0 0 0 false false false false false false false 0)
        (RegInput.mk 48 131084 1 1 131084 1 1)
        (RegExt.mk true true true true true true true true true) 5
        rfl rfl rfl rfl rfl rfl rfl rfl rfl (by decide)).1
        (Or.inl (by decide))
      exact ⟨h.1, h.2.1⟩⟩

end Wintun
